import Mathlib

/-!
Verification of the SmartArt diagram-graph core (`src/pptx/diagram.py`,
`src/pptx/oxml/diagram.py`) against its natural-language specification.

The diagram data model is a shallow embedding of the `dgm:dataModel` XML
sub-document: a point list (`dgm:ptLst` of `dgm:pt` elements) and a
connection list (`dgm:cxnLst` of `dgm:cxn` elements).  XML attributes are
`Option String` (absent attribute = `none`); Python attribute truthiness
(`if s:`) treats both `None` and the empty string as false, which is
modelled by `optTruthy`.
-/

/-- Attribute set of a `dgm:prSet` child element of a point.  Only the
attributes the core reads are given fields; all remaining attributes are
kept in `other` (they are copied verbatim during presentation cloning). -/
structure PrSet where
  presAssocID : Option String
  presName : Option String
  presStyleCnt : Option String
  presStyleIdx : Option String
  other : List (String × String)
  deriving Repr, DecidableEq

/-- Element `dgm:pt`: a point (node) of the diagram.  `modelId` and `ptype`
are the raw XML attributes (`pt.get("modelId")`, `pt.get("type")`); the
`CT_Pt.type` Python property defaults a missing type attribute to
`"node"`, see `Pt.typeProp`. -/
structure Pt where
  modelId : Option String
  ptype : Option String
  cxnId : Option String
  prSet : Option PrSet
  deriving Repr, DecidableEq

/-- Element `dgm:cxn`: a connection (directed edge) of the diagram, with the
raw XML attributes read or written anywhere in the core. -/
structure Cxn where
  modelId : Option String
  type : Option String
  srcId : Option String
  destId : Option String
  srcOrd : Option String
  destOrd : Option String
  parTransId : Option String
  sibTransId : Option String
  presId : Option String
  id : Option String
  deriving Repr, DecidableEq

/-- Element `dgm:dataModel` (class `CT_DataModel`): the diagram-data
document.  Both child lists may be structurally absent. -/
structure CT_DataModel where
  ptLst : Option (List Pt)
  cxnLst : Option (List Cxn)
  deriving Repr, DecidableEq

/-- Decidable equality for the results of fallible operations. -/
instance {ε α : Type} [DecidableEq ε] [DecidableEq α] : DecidableEq (Except ε α) := fun x y =>
  match x, y with
  | .ok a, .ok b =>
    if h : a = b then .isTrue (by rw [h])
    else .isFalse (fun hh => h (Except.ok.inj hh))
  | .error a, .error b =>
    if h : a = b then .isTrue (by rw [h])
    else .isFalse (fun hh => h (Except.error.inj hh))
  | .ok _, .error _ => .isFalse (fun hh => Except.noConfusion hh)
  | .error _, .ok _ => .isFalse (fun hh => Except.noConfusion hh)

/-- Digit run of a decimal numeral (structural model of the digit scan done
by Python's `int(...)`). -/
def digitsToNat : List Char → Option Nat
  | [] => none
  | [c] => if 48 ≤ c.toNat && c.toNat ≤ 57 then some (c.toNat - 48) else none
  | c :: rest =>
    if 48 ≤ c.toNat && c.toNat ≤ 57 then
      (digitsToNat rest).map (fun n => (c.toNat - 48) * 10 ^ rest.length + n)
    else none

/-- Model of Python's `int(s)` as used on `srcOrd` and `id` attribute
values: an optional minus sign followed by decimal digits (`none` where
Python would raise `ValueError`; surrounding whitespace and a leading plus
sign are not modelled). -/
def parseInt (s : String) : Option Int :=
  match s.data with
  | '-' :: rest => (digitsToNat rest).map (fun n => -(n : Int))
  | l => (digitsToNat l).map (fun n => (n : Int))

/-- Python attribute truthiness for an optional XML attribute:
`None` and `""` are falsy. -/
def optTruthy : Option String → Bool
  | some s => !(s == "")
  | none => false

/-- Keep an optional attribute only when it is truthy. -/
def truthyOpt : Option String → Option String
  | some s => if s == "" then none else some s
  | none => none

/-- Property `CT_DataModel.pt_lst`: the list of points, `[]` when the point
list element is absent. -/
def pt_lst (g : CT_DataModel) : List Pt :=
  match g.ptLst with
  | some l => l
  | none => []

/-- Connections of the data model, `[]` when `dgm:cxnLst` is absent. -/
def cxn_lst (g : CT_DataModel) : List Cxn :=
  match g.cxnLst with
  | some l => l
  | none => []

/-- Property `CT_Pt.type`: the type attribute with default `"node"`. -/
def Pt.typeProp (p : Pt) : String :=
  match p.ptype with
  | some s => s
  | none => "node"

/-- Property `CT_Pt.modelId`: the modelId attribute with default `""`. -/
def Pt.modelIdProp (p : Pt) : String :=
  match p.modelId with
  | some s => s
  | none => ""

/-- Property `SmartArtNode.is_editable`: the node type property equals
`"node"` (data nodes have their type attribute removed on creation, so a
missing attribute also counts as editable). -/
def Pt.isEditable (p : Pt) : Bool :=
  p.typeProp == "node"

/-- Value `prSet.get("presAssocID")` of a point, `none` when the point has
no `dgm:prSet` child. -/
def Pt.presAssoc (p : Pt) : Option String :=
  match p.prSet with
  | some pr => pr.presAssocID
  | none => none

/-- Value `prSet.get("presName")` of a point, `none` when the point has no
`dgm:prSet` child. -/
def Pt.presNameOf (p : Pt) : Option String :=
  match p.prSet with
  | some pr => pr.presName
  | none => none

/-- Method `CT_DataModel.get_doc_node`: first point whose `type` property
(default `"node"`) is `"doc"`. -/
def get_doc_node (g : CT_DataModel) : Option Pt :=
  (pt_lst g).find? (fun p => p.typeProp == "doc")

/-- Property `SmartArt.editable_nodes` (as point elements, in document
order). -/
def editable_nodes (g : CT_DataModel) : List Pt :=
  (pt_lst g).filter Pt.isEditable

/-- Parent-child connections are the untyped ones: `cxn.get("type") in
(None, "")`. -/
def isUntypedB (c : Cxn) : Bool :=
  c.type == none || c.type == some ""

/-- Presentation-of connections: `cxn.get("type") == "presOf"`. -/
def isPresOfB (c : Cxn) : Bool :=
  c.type == some "presOf"

/-- Membership of an optional id in a list of ids, as Python's
`x in set_of_str` (where `None in` a set of strings is `False`). -/
def optMem (o : Option String) (l : List String) : Bool :=
  match o with
  | some s => l.contains s
  | none => false

/-- Last-write-wins lookup, modelling a Python dict built by successive
assignments recorded in order in an association list. -/
def lookupLast (m : List (String × String)) (k : String) : Option String :=
  (m.reverse.find? (fun kv => kv.1 == k)).map (fun kv => kv.2)

/-- Entry contributed by one connection to the map from data-node id to its
parent-child `srcOrd` (edges sourced at the document root): the guard is
`cxn.get("type") in (None, "")`, `cxn.get("srcId") == doc_node_id`, and the
Python truthiness test `if dest_id and srcOrd`. -/
def srcord_entry (docId : String) (c : Cxn) : Option (String × String) :=
  if isUntypedB c && c.srcId == some docId then
    match c.destId, c.srcOrd with
    | some d, some s => if d == "" || s == "" then none else some (d, s)
    | _, _ => none
  else none

/-- Map from data-node id to parent-child `srcOrd`, restricted to edges
sourced at the document root (built in both
`SmartArtConnectionManager.cleanup_orphaned_connections` and
`SmartArt.synchronize_presof_ordering`). -/
def build_srcord_map (cxl : List Cxn) (docId : String) : List (String × String) :=
  cxl.filterMap (srcord_entry docId)

/-- Method `SmartArtConnectionManager.create_connection`: append a new
parent-child connection whose `srcOrd` is the count of existing untyped
connections sourced at the parent, with `destOrd = "0"` and the two
transition-point references. -/
def create_connection (cxl : List Cxn) (parentId nodeId cxnId parTransId sibTransId : String) :
    List Cxn :=
  let existing := cxl.filter (fun c => c.srcId == some parentId && isUntypedB c)
  cxl ++ [{ modelId := some cxnId, type := none, srcId := some parentId,
            destId := some nodeId, srcOrd := some (toString existing.length),
            destOrd := some "0", parTransId := some parTransId,
            sibTransId := some sibTransId, presId := none, id := none }]

/-- Method `SmartArtConnectionManager.remove_node_connections`: delete every
connection whose source or destination is the given node id (no-op when the
connection list is absent). -/
def remove_node_connections (cxnLst : Option (List Cxn)) (nodeId : String) :
    Option (List Cxn) :=
  match cxnLst with
  | none => none
  | some cxl => some (cxl.filter (fun c => !(c.srcId == some nodeId || c.destId == some nodeId)))

/-- Transition-point ids referenced (with truthy value) as `parTransId` or
`sibTransId` by some connection. -/
def trans_used (cxl : List Cxn) : List String :=
  cxl.flatMap (fun c =>
    (match truthyOpt c.parTransId with | some s => [s] | none => []) ++
    (match truthyOpt c.sibTransId with | some s => [s] | none => []))

/-- Method `SmartArtNodeFactory._remove_transition_nodes` applied to a point
list, given the surviving connections: remove every `parTrans`/`sibTrans`
point whose modelId property is not referenced by any connection. -/
def remove_transition_pts (cxl : List Cxn) (ptl : List Pt) : List Pt :=
  let used := trans_used cxl
  ptl.filter (fun p =>
    !((p.ptype == some "parTrans" || p.ptype == some "sibTrans") &&
      !(used.contains p.modelIdProp)))

/-- Method `SmartArtNodeFactory._remove_pres_nodes`: remove every `pres`
point whose `presAssocID` is the given node id. -/
def remove_pres_pts (nodeId : String) (ptl : List Pt) : List Pt :=
  ptl.filter (fun p => !(p.ptype == some "pres" && p.presAssoc == some nodeId))

/-- Update applied by `cleanup_orphaned_connections` to one connection: a
`presOf` connection whose source is a data node present in the
srcOrd map gets its `srcOrd` overwritten with that data node's
parent-child `srcOrd`. -/
def presof_sync_elem (m : List (String × String)) (c : Cxn) : Cxn :=
  if isPresOfB c then
    match c.srcId with
    | some s =>
      match lookupLast m s with
      | some v => { c with srcOrd := some v }
      | none => c
    | none => c
  else c

/-- Method `SmartArtConnectionManager.cleanup_orphaned_connections`: drop
connections with a dangling endpoint, then overwrite the `srcOrd` of
`presOf` connections with the parent-child `srcOrd` of their source data
node (edges sourced at the document root). -/
def cleanup_orphaned_connections (g : CT_DataModel) : CT_DataModel :=
  match g.ptLst, g.cxnLst with
  | some ptl, some cxl =>
    let valid := ptl.filterMap (fun p => p.modelId)
    let cxl1 := cxl.filter (fun c => optMem c.srcId valid && optMem c.destId valid)
    let docId? := ((ptl.find? (fun p => p.ptype == some "doc")).bind (fun p => p.modelId))
    let cxl2 :=
      match truthyOpt docId? with
      | some docId => cxl1.map (presof_sync_elem (build_srcord_map cxl1 docId))
      | none => cxl1
    { ptLst := some ptl, cxnLst := some cxl2 }
  | _, _ => g

/-- Python sequence indexing for a sequence of length `n`: a negative index
counts from the end; out-of-range indices raise `IndexError` (here
`none`). -/
def pyIndex (n : Nat) (i : Int) : Option Nat :=
  if 0 ≤ i ∧ i < (n : Int) then some i.toNat
  else if -(n : Int) ≤ i ∧ i < 0 then some ((n : Int) + i).toNat
  else none

/-- Errors `SmartArt.remove_node` can raise: `ValueError("No nodes to
remove")` when the point list is absent, `IndexError` for an out-of-range
integer index, `ValueError` when the node does not belong to the graph. -/
inductive RemoveError where
  | noNodes
  | indexOutOfRange
  | notFound
  deriving Repr, DecidableEq

/-- Editable points of a point list, paired with their positions in the
list (needed because removal deletes the specific element object). -/
def editable_enum (ptl : List Pt) : List (Nat × Pt) :=
  ptl.enum.filter (fun ip => ip.2.isEditable)

/-- Method `SmartArt.remove_node` with an integer index: raise when the
point list is absent or the index is out of range; otherwise remove the
node's connections, its associated presentation points, dangling
transition points and the point itself, then run
`cleanup_orphaned_connections`.  (The source's membership re-check
`node._element not in pt_lst` compares element identity and always passes
on the index path, so it is not modelled.) -/
def remove_node (g : CT_DataModel) (i : Int) : Except RemoveError CT_DataModel :=
  match g.ptLst with
  | none => .error .noNodes
  | some ptl =>
    match pyIndex (editable_enum ptl).length i with
    | none => .error .indexOutOfRange
    | some k =>
      match (editable_enum ptl).get? k with
      | none => .error .indexOutOfRange
      | some je =>
        let nodeId := je.2.modelIdProp
        let cxnLst1 := remove_node_connections g.cxnLst nodeId
        let ptsI1 := ptl.enum.filter
          (fun ip => !(ip.2.ptype == some "pres" && ip.2.presAssoc == some nodeId))
        let ptsI2 :=
          match cxnLst1 with
          | none => ptsI1
          | some cs =>
            ptsI1.filter (fun ip =>
              !((ip.2.ptype == some "parTrans" || ip.2.ptype == some "sibTrans") &&
                !((trans_used cs).contains ip.2.modelIdProp)))
        let ptsI3 := ptsI2.filter (fun ip => !(ip.1 == je.1))
        .ok (cleanup_orphaned_connections
          { ptLst := some (ptsI3.map (fun ip => ip.2)), cxnLst := cxnLst1 })

/-- Count used by `SmartArt._update_pres_style_cnt` (and, shifted by the
node being created, by `create_presentation_nodes`): points whose raw type
attribute is none of `pres`, `parTrans`, `sibTrans`, `doc` (a missing
attribute therefore counts). -/
def countDataPts (ptl : List Pt) : Nat :=
  ptl.countP (fun p =>
    !(p.ptype == some "pres" || p.ptype == some "parTrans" ||
      p.ptype == some "sibTrans" || p.ptype == some "doc"))

/-- Update applied by `SmartArt._update_pres_style_cnt` to a single point:
a `pres` point whose `presName` is `pictRect` or `textRect` gets
`presStyleCnt` set to the given count. -/
def set_style_cnt (c : Nat) (p : Pt) : Pt :=
  if p.ptype == some "pres" then
    match p.prSet with
    | some pr =>
      if pr.presName == some "pictRect" || pr.presName == some "textRect" then
        { p with prSet := some { pr with presStyleCnt := some (toString c) } }
      else p
    | none => p
  else p

/-- Method `SmartArt._update_pres_style_cnt`: refresh `presStyleCnt` of
every `pictRect`/`textRect` presentation point to the current count of
data points. -/
def update_pres_style_cnt (ptl : List Pt) : List Pt :=
  ptl.map (set_style_cnt (countDataPts ptl))

/-- Node ids referenced (with truthy value) as source or destination of
some connection, used by `SmartArt._remove_unreferenced_pres_nodes`. -/
def referenced_ids (cxl : List Cxn) : List String :=
  cxl.flatMap (fun c =>
    (match truthyOpt c.srcId with | some s => [s] | none => []) ++
    (match truthyOpt c.destId with | some s => [s] | none => []))

/-- Method `SmartArt._remove_unreferenced_pres_nodes`: remove every `pres`
point with a truthy modelId that is not referenced by any connection. -/
def remove_unreferenced_pres_nodes (ptl : List Pt) (cxl : List Cxn) : List Pt :=
  let refd := referenced_ids cxl
  ptl.filter (fun p =>
    !(optTruthy p.modelId && !(optMem p.modelId refd) && p.ptype == some "pres"))

/-- Point-list stage of `SmartArt.synchronize_presof_ordering`: style-count
refresh, unreferenced-presentation purge, then transition purge (the purge
reads the connection list, which is not modified before this stage). -/
def sync_stage_pts (ptl : List Pt) (cxl : List Cxn) : List Pt :=
  remove_transition_pts cxl (remove_unreferenced_pres_nodes (update_pres_style_cnt ptl) cxl)

/-- Document-root id resolution of `synchronize_presof_ordering`: take the
first point whose raw type attribute is `"doc"`, then require its modelId
to be truthy (`if not doc_node_id: return`). -/
def find_doc_id (ptl : List Pt) : Option String :=
  truthyOpt ((ptl.find? (fun p => p.ptype == some "doc")).bind (fun p => p.modelId))

/-- Root-presentation resolution of `synchronize_presof_ordering`: the
first `pres` point whose `presName` is `Name0`, with a truthiness check on
its modelId (`if parent_pres_id:`). -/
def find_name0_id (ptl : List Pt) : Option String :=
  truthyOpt
    ((ptl.find? (fun p => p.ptype == some "pres" && p.presNameOf == some "Name0")).bind
      (fun p => p.modelId))

/-- Outcome of examining one `presParOf` child of the root presentation
point: `keep o` (a `compNode` of an active data node with sibling order
`o`), `drop` (stale or invalid child, to be removed), or `skip` (the
destination id matches no point, so the source loop falls through without
touching the connection). -/
inductive ChildClass where
  | keep (o : Int)
  | drop
  | skip
  deriving Repr, DecidableEq

/-- Classify one `presParOf` child destination, mirroring the inner loop of
`synchronize_presof_ordering`: find the first point with the matching
modelId attribute; a `compNode` associated with a data node present in the
sibling-order map is kept with that order (`int(...)` on the stored
string), anything else found is dropped, and an unmatched destination is
skipped. -/
def classify_child (ptl : List Pt) (m : List (String × String)) (dest : Option String) :
    ChildClass :=
  match ptl.find? (fun p => p.modelId == dest) with
  | none => .skip
  | some p =>
    match p.prSet with
    | some pr =>
      if pr.presName == some "compNode" then
        match pr.presAssocID with
        | some dataId =>
          match lookupLast m dataId with
          | some s => .keep ((parseInt s).getD 0)
          | none => .drop
        | none => .drop
      else .drop
    | none => .drop

/-- Scan of the connection list for `presParOf` connections sourced at the
root presentation point, keeping their absolute positions; `i` is the
position of the head of the remaining list. -/
def child_scan_go (ptl : List Pt) (m : List (String × String)) (pid : String) (i : Nat) :
    List Cxn → List (Nat × ChildClass)
  | [] => []
  | c :: cs =>
    if c.type == some "presParOf" && c.srcId == some pid then
      (i, classify_child ptl m c.destId) :: child_scan_go ptl m pid (i + 1) cs
    else child_scan_go ptl m pid (i + 1) cs

/-- Positions of the `presParOf` connections the pass removes. -/
def child_removals (scan : List (Nat × ChildClass)) : List Nat :=
  scan.filterMap (fun ic =>
    match ic.2 with
    | .drop => some ic.1
    | _ => none)

/-- Stable insertion into a list sorted by `le` (insertion before the first
element the new one is `le`-related to keeps earlier elements of equal key
first, as Python's stable sort does). -/
def insSorted (le : α → α → Bool) (x : α) : List α → List α
  | [] => [x]
  | y :: ys => if le x y then x :: y :: ys else y :: insSorted le x ys

/-- Stable insertion sort (model of Python's `list.sort`). -/
def stableSort (le : α → α → Bool) : List α → List α
  | [] => []
  | x :: xs => insSorted le x (stableSort le xs)

/-- Sequential numbering of the sorted kept children: pairs each child's
connection position with its new order. -/
def assigns_go (n : Nat) : List (Int × Nat) → List (Nat × Nat)
  | [] => []
  | oi :: rest => (oi.2, n) :: assigns_go (n + 1) rest

/-- Renumbering assignments: the kept children sorted by their data node's
sibling order (stable), then numbered sequentially; the result maps the
connection's position to its new `srcOrd`. -/
def child_assigns (scan : List (Nat × ChildClass)) : List (Nat × Nat) :=
  let kept := scan.filterMap (fun ic =>
    match ic.2 with
    | .keep o => some (o, ic.1)
    | _ => none)
  assigns_go 0 (stableSort (fun a b => decide (a.1 ≤ b.1)) kept)

/-- First-match lookup in the position-to-order assignment list. -/
def lookupIdx (assigns : List (Nat × Nat)) (i : Nat) : Option Nat :=
  (assigns.find? (fun kv => kv.1 == i)).map (fun kv => kv.2)

/-- Assignment step applied to the connection at position `i`. -/
def assignElem (assigns : List (Nat × Nat)) (i : Nat) (c : Cxn) : Cxn :=
  match lookupIdx assigns i with
  | some o => { c with srcOrd := some (toString o) }
  | none => c

/-- Removal and renumbering of `presParOf` children by position: positions
in `removals` are deleted, positions in `assigns` get the new `srcOrd`. -/
def apply_children_go (removals : List Nat) (assigns : List (Nat × Nat)) (i : Nat) :
    List Cxn → List Cxn
  | [] => []
  | c :: cs =>
    if removals.contains i then apply_children_go removals assigns (i + 1) cs
    else assignElem assigns i c :: apply_children_go removals assigns (i + 1) cs

/-- Presentation-hierarchy renumbering stage of
`synchronize_presof_ordering`, for a resolved root presentation id. -/
def sync_presparof (ptl : List Pt) (m : List (String × String)) (pid : String)
    (cxl : List Cxn) : List Cxn :=
  let scan := child_scan_go ptl m pid 0 cxl
  apply_children_go (child_removals scan) (child_assigns scan) 0 cxl

/-- Maximum numeric connection id (`int(cid)` over parseable id attributes,
starting from 0), used by `SmartArt._ensure_connection_ids`. -/
def max_cxn_id (cxl : List Cxn) : Int :=
  cxl.foldl (fun mx c =>
    match c.id with
    | some s =>
      match parseInt s with
      | some v => max mx v
      | none => mx
    | none => mx) 0

/-- Backfill loop of `SmartArt._ensure_connection_ids`: assign sequential
integer ids to the connections whose id attribute is falsy. -/
def ensure_go (n : Int) : List Cxn → List Cxn
  | [] => []
  | c :: cs =>
    if optTruthy c.id then c :: ensure_go n cs
    else { c with id := some (toString n) } :: ensure_go (n + 1) cs

/-- Method `SmartArt._ensure_connection_ids`. -/
def ensure_connection_ids (cxl : List Cxn) : List Cxn :=
  ensure_go (max_cxn_id cxl + 1) cxl

/-- Body of `SmartArt.synchronize_presof_ordering` once both lists are
known to be present (the dead `data_to_compnode` dictionary built by the
source is omitted: it is never read).  Note that `presOf` connections are
deliberately not touched by this pass. -/
def sync_core (ptl : List Pt) (cxl : List Cxn) : List Pt × List Cxn :=
  let p := sync_stage_pts ptl cxl
  match find_doc_id p with
  | none => (p, cxl)
  | some docId =>
    let m := build_srcord_map cxl docId
    let c1 :=
      match find_name0_id p with
      | some pid => sync_presparof p m pid cxl
      | none => cxl
    (p, ensure_connection_ids c1)

/-- Method `SmartArt.synchronize_presof_ordering`: the full normalization
pass, a no-op when either list is absent. -/
def synchronize_presof_ordering (g : CT_DataModel) : CT_DataModel :=
  match g.ptLst, g.cxnLst with
  | some ptl, some cxl =>
    { ptLst := some (sync_core ptl cxl).1, cxnLst := some (sync_core ptl cxl).2 }
  | _, _ => g

/-- Number of `presParOf` connections `synchronize_presof_ordering` removes
from the given graph (0 when the pass returns early). -/
def sync_removal_count (g : CT_DataModel) : Nat :=
  match g.ptLst, g.cxnLst with
  | some ptl, some cxl =>
    let p := sync_stage_pts ptl cxl
    (match find_doc_id p with
     | none => 0
     | some docId =>
       match find_name0_id p with
       | some pid =>
         (child_removals (child_scan_go p (build_srcord_map cxl docId) pid 0 cxl)).length
       | none => 0)
  | _, _ => 0

/-- Parent selector accepted by `SmartArt.add_node`: `None`, a node handle,
or the string `"root"`. -/
inductive ParentSel where
  | root
  | explicitNode (p : Pt)
  | noParent
  deriving Repr, DecidableEq

/-- Method `SmartArt._resolve_parent_node`: `"root"` resolves through
`get_doc_node`; an explicit node resolves to its own element; `None` with
at least one editable node scans the connection list for an untyped
connection into the last editable node whose source id matches some point
(connections whose source matches no point are skipped and the scan
continues); every other case falls back to `get_doc_node`. -/
def resolve_parent_node (g : CT_DataModel) : ParentSel → Option Pt
  | .root => get_doc_node g
  | .explicitNode p => some p
  | .noParent =>
    match (editable_nodes g).getLast? with
    | some last =>
      match
        (cxn_lst g).findSome? (fun c =>
          if c.destId == some last.modelIdProp && isUntypedB c then
            (pt_lst g).find? (fun p => some p.modelIdProp == c.srcId)
          else none)
      with
      | some p => some p
      | none => get_doc_node g
    | none => get_doc_node g

/-- Empty `dgm:prSet` element (no attributes). -/
def emptyPrSet : PrSet :=
  { presAssocID := none, presName := none, presStyleCnt := none,
    presStyleIdx := none, other := [] }

/-- Point built by `SmartArtNodeFactory._create_data_node`: `add_pt` sets
modelId and type `"node"`, then the type attribute is deleted; empty
`prSet` and `spPr` children are added. -/
def mk_data_pt (nodeId : String) : Pt :=
  { modelId := some nodeId, ptype := none, cxnId := none, prSet := some emptyPrSet }

/-- Transition point built by
`SmartArtNodeFactory._create_transition_nodes`. -/
def mk_trans_pt (ptId ptType cxnId : String) : Pt :=
  { modelId := some ptId, ptype := some ptType, cxnId := some cxnId,
    prSet := some emptyPrSet }

/-- Template collection of
`SmartArtNodeFactory.create_presentation_nodes`: `pres` points whose
`presAssocID` is the template data node id (empty when the template id is
falsy). -/
def template_pres_nodes (ptl : List Pt) (tid : Option String) : List Pt :=
  match truthyOpt tid with
  | some t =>
    ptl.filter (fun p => p.ptype == some "pres" && p.presAssoc == some t)
  | none => []

/-- Templates sorted by `presName` (missing name sorts as `""`), the
deterministic-order sort of `create_presentation_nodes`. -/
def sorted_templates (ptl : List Pt) (tid : Option String) : List Pt :=
  stableSort (fun a b => decide ((a.presNameOf.getD "") ≤ (b.presNameOf.getD "")))
    (template_pres_nodes ptl tid)

/-- Editable-node count of `create_presentation_nodes`: points whose raw
type is none of `pres`, `parTrans`, `sibTrans`, `doc` and whose modelId
attribute differs from the data node being created. -/
def countEditableExcl (ptl : List Pt) (dataId : String) : Nat :=
  ptl.countP (fun p =>
    !(p.ptype == some "pres" || p.ptype == some "parTrans" ||
      p.ptype == some "sibTrans" || p.ptype == some "doc") &&
    !(p.modelId == some dataId))

/-- Clone of one template presentation point (`create_presentation_nodes`
loop body): fresh id, type `pres`, `presAssocID` pointing at the new data
node; all other `prSet` attributes copied except `presStyleIdx` and
`presStyleCnt`, which are recomputed — except that a `compNode` keeps the
template's `presStyleCnt` verbatim. -/
def clone_pres_pt (dataId : String) (cnt idx : Nat) (freshId : String) (tpl : Pt) : Pt :=
  let base : PrSet := { emptyPrSet with presAssocID := some dataId }
  match tpl.prSet with
  | none => { modelId := some freshId, ptype := some "pres", cxnId := none, prSet := some base }
  | some tpr =>
    let pr1 : PrSet := { base with presName := tpr.presName, other := tpr.other }
    let pr2 : PrSet :=
      match tpr.presStyleCnt with
      | some tc =>
        if tpr.presName == some "compNode" then { pr1 with presStyleCnt := some tc }
        else { pr1 with presStyleCnt := some (toString cnt) }
      | none => pr1
    let pr3 : PrSet :=
      if tpr.presStyleIdx.isSome then { pr2 with presStyleIdx := some (toString idx) }
      else pr2
    { modelId := some freshId, ptype := some "pres", cxnId := none, prSet := some pr3 }

/-- Identifier of the cloned `textRect` presentation point, when one was
produced: the loop records the clone id each time a template's `presName`
is `textRect` (with a `prSet` present), so the last such template wins. -/
def textRect_clone_id (templates : List Pt) (presIds : Nat → String) : Option String :=
  ((templates.enum.filter (fun kt => kt.2.prSet.isSome &&
      kt.2.presNameOf == some "textRect")).getLast?).map (fun kt => presIds kt.1)

/-- Endpoint remapping of
`SmartArtNodeFactory._create_presentation_connections_from_template`: an
endpoint equal to some template id is replaced by the clone id at the first
matching index; other endpoints pass through. -/
def remap_endpoint (tids : List (Option String)) (pids : List String)
    (o : Option String) : Option String :=
  if tids.contains o then
    match tids.findIdx? (fun t => t == o) with
    | some k => some (pids.getD k "")
    | none => o
  else o

/-- Mirrored connection: fresh modelId, remapped endpoints, every other
attribute copied from the template connection. -/
def mirror_cxn (tids : List (Option String)) (pids : List String)
    (freshId : String) (c : Cxn) : Cxn :=
  { c with modelId := some freshId,
           srcId := remap_endpoint tids pids c.srcId,
           destId := remap_endpoint tids pids c.destId }

/-- Mirroring loop over the template connections, threading the index used
to draw fresh connection ids. -/
def mirror_go (tids : List (Option String)) (pids : List String)
    (mirrorIds : Nat → String) (m : Nat) : List Cxn → List Cxn
  | [] => []
  | c :: cs =>
    mirror_cxn tids pids (mirrorIds m) c :: mirror_go tids pids mirrorIds (m + 1) cs

/-- Method
`SmartArtNodeFactory._create_presentation_connections_from_template`:
mirror every non-`presOf` connection touching a template presentation point
(no-op when the guard fails or the connection list is absent). -/
def mirror_connections (g : CT_DataModel) (tids : List (Option String))
    (pids : List String) (mirrorIds : Nat → String) : CT_DataModel :=
  if tids.isEmpty || !(pids.length == tids.length) then g
  else
    match g.cxnLst with
    | none => g
    | some cxl =>
      let tcs := cxl.filter (fun c =>
        !(c.type == some "presOf") && (tids.contains c.srcId || tids.contains c.destId))
      { g with cxnLst := some (cxl ++ mirror_go tids pids mirrorIds 0 tcs) }

/-- Connection appended by `SmartArtNodeFactory._create_presof_connection`. -/
def mk_presof_cxn (freshId dataId textRectId inheritedPresId : String) : Cxn :=
  { modelId := some freshId, type := some "presOf", srcId := some dataId,
    destId := some textRectId, srcOrd := some "0", destOrd := some "0",
    parTransId := none, sibTransId := none, presId := some inheritedPresId,
    id := none }

/-- Method `SmartArtNodeFactory._create_presof_connection`: inherit `presId`
from the first `presOf` connection in the list; when there is no such
connection, or its `presId` is falsy, create nothing. -/
def create_presof_connection (g : CT_DataModel) (dataId textRectId freshId : String) :
    CT_DataModel :=
  match g.cxnLst with
  | none => g
  | some cxl =>
    match cxl.find? isPresOfB with
    | some c0 =>
      match truthyOpt c0.presId with
      | some pres => { g with cxnLst := some (cxl ++ [mk_presof_cxn freshId dataId textRectId pres]) }
      | none => g
    | none => g

/-- Method `SmartArtNodeFactory.create_presentation_nodes`: clone the
template presentation points for the new data node (no-op when there are
none), mirror their non-`presOf` connections, and create the single
`presOf` connection when a `textRect` clone was produced. -/
def create_presentation_nodes (g : CT_DataModel) (dataId : String) (tid : Option String)
    (presIds mirrorIds : Nat → String) (presOfId : String) : CT_DataModel :=
  let templates := sorted_templates (pt_lst g) tid
  if templates.isEmpty then g
  else
    let cnt := countEditableExcl (pt_lst g) dataId
    let newPts := templates.enum.map (fun kt =>
      clone_pres_pt dataId (cnt + 1) cnt (presIds kt.1) kt.2)
    let g1 : CT_DataModel := { g with ptLst := some (pt_lst g ++ newPts) }
    let g2 := mirror_connections g1 (templates.map (fun t => t.modelId))
      (templates.enum.map (fun kt => presIds kt.1)) mirrorIds
    match truthyOpt (textRect_clone_id templates presIds) with
    | some tr => create_presof_connection g2 dataId tr presOfId
    | none => g2

/-- Method `SmartArt._auto_create_presentation_nodes`: pick as template the
first editable node other than the new one that has an associated
presentation point, and clone its presentation structure (guarded by the
truthiness of the template id). -/
def auto_create_presentation_nodes (g : CT_DataModel) (newId : String)
    (presIds mirrorIds : Nat → String) (presOfId : String) : CT_DataModel :=
  let tmpl : Option String :=
    (editable_nodes g).findSome? (fun n =>
      if !(n.modelIdProp == newId) then
        if (pt_lst g).any (fun p =>
            p.ptype == some "pres" && p.presAssoc == some n.modelIdProp) then
          some n.modelIdProp
        else none
      else none)
  match truthyOpt tmpl with
  | some t => create_presentation_nodes g newId (some t) presIds mirrorIds presOfId
  | none => g

/-- Fresh identifiers consumed by one `add_node` call (`_generate_node_ids`
produces opaque unique UUID strings; they are threaded as parameters). -/
structure NewIds where
  nodeId : String
  cxnId : String
  parTransId : String
  sibTransId : String
  deriving Repr, DecidableEq

/-- Method `SmartArt.add_node` (text setting aside, which does not touch
the graph structure): ensure the connection list, resolve the parent before
any node is created, ensure the point list, create the data node and its
transition pair, connect to the resolved parent when there is one,
auto-clone presentation nodes, then run the normalization pass.  Returns
the mutated graph and the new node's id. -/
def add_node (g : CT_DataModel) (parent : ParentSel) (ids : NewIds)
    (presIds mirrorIds : Nat → String) (presOfId : String) : CT_DataModel × String :=
  let g1 : CT_DataModel := { g with cxnLst := some (cxn_lst g) }
  let parent_node := resolve_parent_node g1 parent
  let g2 : CT_DataModel := { g1 with ptLst := some (pt_lst g1) }
  let g3 : CT_DataModel :=
    { g2 with ptLst := some (pt_lst g2 ++
        [mk_data_pt ids.nodeId,
         mk_trans_pt ids.parTransId "parTrans" ids.cxnId,
         mk_trans_pt ids.sibTransId "sibTrans" ids.cxnId]) }
  let g4 : CT_DataModel :=
    match parent_node with
    | some pn =>
      { g3 with cxnLst := some (create_connection (cxn_lst g3) pn.modelIdProp
          ids.nodeId ids.cxnId ids.parTransId ids.sibTransId) }
    | none => g3
  let g5 := auto_create_presentation_nodes g4 ids.nodeId presIds mirrorIds presOfId
  (synchronize_presof_ordering g5, ids.nodeId)

/-- Value `prSet.get("presStyleCnt")` of a point. -/
def Pt.styleCntOf (p : Pt) : Option String :=
  match p.prSet with
  | some pr => pr.presStyleCnt
  | none => none

/-- Source orders of the parent-child (untyped) connections, in document
order. -/
def untyped_srcords (g : CT_DataModel) : List (Option String) :=
  (cxn_lst g).filterMap (fun c => if isUntypedB c then some c.srcOrd else none)

/-- Source orders of the `presOf` connections, in document order. -/
def presof_srcords (g : CT_DataModel) : List (Option String) :=
  (cxn_lst g).filterMap (fun c => if isPresOfB c then some c.srcOrd else none)

/-- Style counts carried by the `textRect` presentation points, in document
order. -/
def textrect_style_cnts (g : CT_DataModel) : List (Option String) :=
  (pt_lst g).filterMap (fun p =>
    if p.ptype == some "pres" && p.presNameOf == some "textRect" then some p.styleCntOf
    else none)

/-- Specification-side description (§4.6): the document root point, the
single point of kind `Document` that top-level data nodes attach beneath. -/
def document_root (g : CT_DataModel) : Option Pt :=
  (pt_lst g).find? (fun p => p.typeProp == "doc")

/-- Specification-side description of `FindParent` (§4.4): the point that
is the source of the (at most one) `ParentChild` edge whose destination is
the child, or nothing when there is no such edge or its source resolves to
no point. -/
def find_parent_spec (g : CT_DataModel) (childId : String) : Option Pt :=
  ((cxn_lst g).find? (fun c => isUntypedB c && c.destId == some childId)).bind
    (fun c => (pt_lst g).find? (fun p => some p.modelIdProp == c.srcId))

/-- Specification-side parent resolution for `AddNode` (§4.6): `Root` maps
to the document root; an explicit node maps to itself; `None` with at least
one editable node maps to the parent of the last editable node, falling
back to the document root on resolution failure; `None` with no editable
nodes maps to the document root. -/
def resolve_parent_spec (g : CT_DataModel) : ParentSel → Option Pt
  | .root => document_root g
  | .explicitNode p => some p
  | .noParent =>
    match (editable_nodes g).getLast? with
    | some last =>
      match find_parent_spec g last.modelIdProp with
      | some p => some p
      | none => document_root g
    | none => document_root g

/-- Trivial id generator for scenarios where no presentation cloning can
occur. -/
def noPres : Nat → String := fun _ => "P"

/-- Scenario start state: a diagram whose point list holds only the
document root point. -/
def docOnly : CT_DataModel :=
  { ptLst := some [{ modelId := some "D", ptype := some "doc", cxnId := none, prSet := none }],
    cxnLst := none }

/-- Fresh ids consumed when adding the node Alpha. -/
def idsA : NewIds := { nodeId := "A", cxnId := "CA", parTransId := "PA", sibTransId := "SA" }

/-- Fresh ids consumed when adding the node Beta. -/
def idsB : NewIds := { nodeId := "B", cxnId := "CB", parTransId := "PB", sibTransId := "SB" }

/-- Scenario 1: `AddNode("Alpha")` on the document-root-only diagram. -/
def scenario1 : CT_DataModel := (add_node docOnly .noParent idsA noPres noPres "PO1").1

/-- Scenario 2: `AddNode("Beta")` with no explicit parent, continuing from
Scenario 1. -/
def scenario2 : CT_DataModel := (add_node scenario1 .noParent idsB noPres noPres "PO2").1

/-- Parent-child connection created for Alpha in Scenario 1 (after the
normalization pass has backfilled its integer id). -/
def cxnAlpha : Cxn :=
  { modelId := some "CA", type := none, srcId := some "D", destId := some "A",
    srcOrd := some "0", destOrd := some "0", parTransId := some "PA",
    sibTransId := some "SA", presId := none, id := some "1" }

/-- Parent-child connection created for Beta in Scenario 2. -/
def cxnBeta : Cxn :=
  { modelId := some "CB", type := none, srcId := some "D", destId := some "B",
    srcOrd := some "1", destOrd := some "0", parTransId := some "PB",
    sibTransId := some "SB", presId := none, id := some "2" }

/-- Concrete diagram with two data nodes where Beta carries a `textRect`
presentation point and its `presOf` connection: document root `D`, data
nodes `A` (sibling order 0) and `B` (sibling order 1), presentation point
`T` (`textRect`, `presStyleCnt` 2) and connections `D→A`, `D→B`, and
`presOf B→T` with orders `0/0`. -/
def gC1 : CT_DataModel :=
  { ptLst := some [
      { modelId := some "D", ptype := some "doc", cxnId := none, prSet := none },
      { modelId := some "A", ptype := none, cxnId := none, prSet := some emptyPrSet },
      { modelId := some "B", ptype := none, cxnId := none, prSet := some emptyPrSet },
      { modelId := some "T", ptype := some "pres", cxnId := none,
        prSet := some { presAssocID := some "B", presName := some "textRect",
                        presStyleCnt := some "2", presStyleIdx := some "1", other := [] } }],
    cxnLst := some [
      { modelId := some "C1", type := none, srcId := some "D", destId := some "A",
        srcOrd := some "0", destOrd := some "0", parTransId := none, sibTransId := none,
        presId := none, id := some "1" },
      { modelId := some "C2", type := none, srcId := some "D", destId := some "B",
        srcOrd := some "1", destOrd := some "0", parTransId := none, sibTransId := none,
        presId := none, id := some "2" },
      { modelId := some "C3", type := some "presOf", srcId := some "B", destId := some "T",
        srcOrd := some "0", destOrd := some "0", parTransId := none, sibTransId := none,
        presId := some "L", id := some "3" }] }

/-- Concrete diagram on which the normalization pass is not idempotent:
document root `D`, root presentation point `N` (`Name0`) and a presentation
point `X` of another name, joined by a `presParOf` connection.  The first
run drops the invalid `presParOf` connection; only the second run then
removes the now-unreferenced presentation points. -/
def gC3 : CT_DataModel :=
  { ptLst := some [
      { modelId := some "D", ptype := some "doc", cxnId := none, prSet := none },
      { modelId := some "N", ptype := some "pres", cxnId := none,
        prSet := some { emptyPrSet with presName := some "Name0" } },
      { modelId := some "X", ptype := some "pres", cxnId := none,
        prSet := some { emptyPrSet with presName := some "foo" } }],
    cxnLst := some [
      { modelId := some "K", type := some "presParOf", srcId := some "N", destId := some "X",
        srcOrd := some "0", destOrd := some "0", parTransId := none, sibTransId := none,
        presId := none, id := some "1" }] }

/-- Concrete diagram with no document root but with an untyped connection
between its two data nodes `A → B`. -/
def gC9 : CT_DataModel :=
  { ptLst := some [
      { modelId := some "A", ptype := none, cxnId := none, prSet := some emptyPrSet },
      { modelId := some "B", ptype := none, cxnId := none, prSet := some emptyPrSet }],
    cxnLst := some [
      { modelId := some "C0", type := none, srcId := some "A", destId := some "B",
        srcOrd := some "0", destOrd := some "0", parTransId := none, sibTransId := none,
        presId := none, id := some "1" }] }

/-- Fresh ids for the node added to `gC9`. -/
def idsN : NewIds := { nodeId := "V", cxnId := "CV", parTransId := "PV", sibTransId := "SV" }

/-- Entirely empty diagram (both structural lists absent). -/
def gEmpty : CT_DataModel := { ptLst := none, cxnLst := none }

/-- Well-formed diagram exercising the full normalization pass: a root
presentation point with two `compNode` children of active data nodes. -/
def gW3 : CT_DataModel :=
  { ptLst := some [
      { modelId := some "D", ptype := some "doc", cxnId := none, prSet := none },
      { modelId := some "A", ptype := none, cxnId := none, prSet := some emptyPrSet },
      { modelId := some "B", ptype := none, cxnId := none, prSet := some emptyPrSet },
      { modelId := some "N", ptype := some "pres", cxnId := none,
        prSet := some { emptyPrSet with presName := some "Name0" } },
      { modelId := some "KA", ptype := some "pres", cxnId := none,
        prSet := some { emptyPrSet with presName := some "compNode", presAssocID := some "A" } },
      { modelId := some "KB", ptype := some "pres", cxnId := none,
        prSet := some { emptyPrSet with presName := some "compNode", presAssocID := some "B" } }],
    cxnLst := some [
      { modelId := some "E1", type := none, srcId := some "D", destId := some "A",
        srcOrd := some "0", destOrd := some "0", parTransId := none, sibTransId := none,
        presId := none, id := some "1" },
      { modelId := some "E2", type := none, srcId := some "D", destId := some "B",
        srcOrd := some "1", destOrd := some "0", parTransId := none, sibTransId := none,
        presId := none, id := some "2" },
      { modelId := some "E3", type := some "presParOf", srcId := some "N", destId := some "KB",
        srcOrd := some "9", destOrd := some "0", parTransId := none, sibTransId := none,
        presId := none, id := some "3" },
      { modelId := some "E4", type := some "presParOf", srcId := some "N", destId := some "KA",
        srcOrd := some "7", destOrd := some "0", parTransId := none, sibTransId := none,
        presId := none, id := none },
      { modelId := some "E5", type := some "presOf", srcId := some "N", destId := some "N",
        srcOrd := some "0", destOrd := some "0", parTransId := none, sibTransId := none,
        presId := none, id := some "4" }] }

/-- Template diagram for presentation cloning: data node `TPL` with a
`textRect` presentation point `T1` and an existing `presOf` connection
carrying the layout identifier. -/
def gW8 : CT_DataModel :=
  { ptLst := some [
      { modelId := some "TPL", ptype := none, cxnId := none, prSet := some emptyPrSet },
      { modelId := some "T1", ptype := some "pres", cxnId := none,
        prSet := some { presAssocID := some "TPL", presName := some "textRect",
                        presStyleCnt := some "1", presStyleIdx := some "0", other := [] } }],
    cxnLst := some [
      { modelId := some "PC1", type := some "presOf", srcId := some "TPL", destId := some "T1",
        srcOrd := some "0", destOrd := some "0", parTransId := none, sibTransId := none,
        presId := some "L", id := some "1" }] }

/-- Variant of `gW8` whose connection list holds no `presOf` connection. -/
def gW8a : CT_DataModel :=
  { ptLst := gW8.ptLst, cxnLst := some [] }

/-- Variant of `gW8` whose connection list holds two `presOf` connections:
the first carries no `presId` at all, while the second carries the layout
identifier `L`. -/
def gC8 : CT_DataModel :=
  { ptLst := gW8.ptLst, cxnLst := some [
      { modelId := some "PC0", type := some "presOf", srcId := some "TPL", destId := some "T1",
        srcOrd := some "0", destOrd := some "0", parTransId := none, sibTransId := none,
        presId := none, id := some "1" },
      { modelId := some "PC1", type := some "presOf", srcId := some "TPL", destId := some "T1",
        srcOrd := some "0", destOrd := some "0", parTransId := none, sibTransId := none,
        presId := some "L", id := some "2" }] }

/-- Empty but structurally present diagram, used to exercise `add_node`
when nothing can be resolved. -/
def gW9 : CT_DataModel := { ptLst := some [], cxnLst := some [] }

/-! ### Supporting lemmas -/

theorem presof_sync_elem_type (m : List (String × String)) (c : Cxn) :
    (presof_sync_elem m c).type = c.type := by
  unfold presof_sync_elem
  split
  · split
    · split <;> rfl
    · rfl
  · rfl

theorem presof_sync_elem_of_untyped (m : List (String × String)) (c : Cxn)
    (h : isUntypedB c = true) : presof_sync_elem m c = c := by
  unfold presof_sync_elem
  have hp : isPresOfB c = false := by
    unfold isUntypedB at h
    unfold isPresOfB
    rcases Bool.or_eq_true_iff.mp h with h1 | h1 <;>
      simp only [beq_iff_eq] at h1 <;> simp [h1]
  simp [hp]

/-! ### Claim C1 -/

/-- C1: the claim states that every `PresentationOf` connection keeps
`sourceOrder = destOrder = 0` after every facade operation.  The code
violates this: on `gC1`, `remove_node 0` (removing the data node `A`)
rewrites the `presOf` connection of the surviving node `B` to
`srcOrd = "1"` inside `cleanup_orphaned_connections`, contradicting the
source's own comment in `synchronize_presof_ordering` that `presOf`
connections always use `srcOrd="0" destOrd="0"`. -/
theorem C1_presof_fixed_order_code_bug :
    presof_srcords gC1 = [some "0"] ∧
    (remove_node gC1 0).map presof_srcords = Except.ok [some "1"] :=
  ⟨by decide, by decide⟩

/-! ### Claim C2 -/

/-- C2 counterexample: in Scenario 3 (`remove_node 0` on the Scenario 2
diagram) the sole surviving parent-child connection (Beta's) keeps
`srcOrd = "1"`; it is not renumbered to `"0"` as the claim states. -/
theorem C2_sibling_contiguity_cex :
    (remove_node scenario2 0).map untyped_srcords = Except.ok [some "1"] := by
  decide

/-- C2 amended: `remove_node` performs no renumbering at all — every
surviving parent-child (untyped) connection is carried over into the result
unchanged (in particular Beta's edge keeps `srcOrd = "1"` in Scenario 3, so
sibling contiguity is not restored by node removal). -/
theorem C2_remove_node_preserves_parent_child (g : CT_DataModel) (i : Int)
    (g' : CT_DataModel) (c : Cxn) (hok : remove_node g i = Except.ok g')
    (hmem : c ∈ cxn_lst g') (hu : isUntypedB c = true) : c ∈ cxn_lst g := by
  unfold remove_node at hok
  split at hok
  · exact absurd hok (by simp)
  split at hok
  · exact absurd hok (by simp)
  split at hok
  · exact absurd hok (by simp)
  next ptl hg k _ je _ =>
  simp only [Except.ok.injEq] at hok
  subst hok
  rcases hc : g.cxnLst with _ | cxl
  · rw [hc] at hmem
    simp only [remove_node_connections, cleanup_orphaned_connections, cxn_lst] at hmem
    simp at hmem
  rw [hc] at hmem
  simp only [remove_node_connections, cleanup_orphaned_connections] at hmem
  simp only [cxn_lst] at hmem
  rw [cxn_lst, hc]
  set nodeId := je.2.modelIdProp
  set cxlF := cxl.filter (fun c => !(c.srcId == some nodeId || c.destId == some nodeId)) with hcxlF
  have hsub : ∀ x ∈ cxlF, x ∈ cxl := by
    intro x hx
    exact (List.mem_filter.mp hx).1
  revert hmem
  split
  · intro hmem
    rcases List.mem_map.mp hmem with ⟨c0, hc0, hce⟩
    have hc0m : c0 ∈ cxlF := (List.mem_filter.mp hc0).1
    have hu0 : isUntypedB c0 = true := by
      have ht : c0.type = c.type := by rw [← hce, presof_sync_elem_type]
      unfold isUntypedB at hu ⊢
      rw [ht]
      exact hu
    rw [← hce, presof_sync_elem_of_untyped _ _ hu0]
    exact hsub _ hc0m
  · intro hmem
    exact hsub _ (List.mem_filter.mp hmem).1

/-- C2 witness: applying the preservation theorem to Scenario 3 shows
Beta's connection (still with `srcOrd = "1"`) was already present before
the removal. -/
theorem C2_remove_node_preserves_parent_child_witness :
    cxnBeta ∈ cxn_lst scenario2 :=
  C2_remove_node_preserves_parent_child scenario2 0
    ((remove_node scenario2 0).toOption.getD gEmpty) cxnBeta
    (by decide) (by decide) (by decide)

/-! ### Claim C3 counterexample -/

/-- C3 counterexample: on `gC3` the normalization pass is not idempotent —
the first run removes the invalid `presParOf` connection under the root
presentation point, and only the second run then removes the presentation
points that removal left unreferenced. -/
theorem C3_idempotent_cex :
    synchronize_presof_ordering (synchronize_presof_ordering gC3) ≠
      synchronize_presof_ordering gC3 := by
  decide

/-! ### Claim C4 -/

/-- C4 counterexample: `remove_node` on a diagram with a missing point list
raises (`ValueError("No nodes to remove")`), rather than lazily creating
the structure. -/
theorem C4_missing_ptlst_cex :
    remove_node gEmpty 0 = Except.error RemoveError.noNodes := by
  decide

theorem mirror_connections_ptLst (g : CT_DataModel) (tids : List (Option String))
    (pids : List String) (f : Nat → String) :
    (mirror_connections g tids pids f).ptLst = g.ptLst := by
  unfold mirror_connections
  split
  · rfl
  · split <;> rfl

theorem mirror_connections_cxn_some (g : CT_DataModel) (tids : List (Option String))
    (pids : List String) (f : Nat → String) (h : g.cxnLst.isSome) :
    (mirror_connections g tids pids f).cxnLst.isSome := by
  unfold mirror_connections
  split
  · exact h
  · split
    · exact h
    · simp

theorem create_presof_ptLst (g : CT_DataModel) (a b c : String) :
    (create_presof_connection g a b c).ptLst = g.ptLst := by
  unfold create_presof_connection
  split
  · rfl
  · split
    · split <;> rfl
    · rfl

theorem create_presof_cxn_some (g : CT_DataModel) (a b c : String)
    (h : g.cxnLst.isSome) : (create_presof_connection g a b c).cxnLst.isSome := by
  unfold create_presof_connection
  split
  · exact h
  · split
    · split
      · simp
      · exact h
    · exact h

theorem create_presentation_nodes_some (g : CT_DataModel) (dataId : String)
    (tid : Option String) (f1 f2 : Nat → String) (s : String)
    (h1 : g.ptLst.isSome) (h2 : g.cxnLst.isSome) :
    (create_presentation_nodes g dataId tid f1 f2 s).ptLst.isSome ∧
    (create_presentation_nodes g dataId tid f1 f2 s).cxnLst.isSome := by
  unfold create_presentation_nodes
  dsimp only
  split
  · exact ⟨h1, h2⟩
  · split
    · constructor
      · rw [create_presof_ptLst, mirror_connections_ptLst]
        simp
      · apply create_presof_cxn_some
        apply mirror_connections_cxn_some
        exact h2
    · constructor
      · rw [mirror_connections_ptLst]
        simp
      · exact mirror_connections_cxn_some _ _ _ _ h2

theorem auto_create_some (g : CT_DataModel) (newId : String)
    (f1 f2 : Nat → String) (s : String) (h1 : g.ptLst.isSome) (h2 : g.cxnLst.isSome) :
    (auto_create_presentation_nodes g newId f1 f2 s).ptLst.isSome ∧
    (auto_create_presentation_nodes g newId f1 f2 s).cxnLst.isSome := by
  unfold auto_create_presentation_nodes
  dsimp only
  split
  · exact create_presentation_nodes_some _ _ _ _ _ _ h1 h2
  · exact ⟨h1, h2⟩

theorem synchronize_some (g : CT_DataModel) (h1 : g.ptLst.isSome) (h2 : g.cxnLst.isSome) :
    (synchronize_presof_ordering g).ptLst.isSome ∧
    (synchronize_presof_ordering g).cxnLst.isSome := by
  unfold synchronize_presof_ordering
  split
  · simp
  · exact ⟨h1, h2⟩

/-- C4 amended: structural absence is handled asymmetrically.  `add_node`
lazily creates both missing lists (its result always has a point list and a
connection list), but `remove_node` on a diagram whose point list is absent
raises `ValueError("No nodes to remove")`. -/
theorem C4_structural_absence :
    (∀ (g : CT_DataModel) (i : Int), g.ptLst = none →
      remove_node g i = Except.error RemoveError.noNodes) ∧
    (∀ (g : CT_DataModel) (parent : ParentSel) (ids : NewIds) (f1 f2 : Nat → String)
      (s : String), (add_node g parent ids f1 f2 s).1.ptLst.isSome ∧
        (add_node g parent ids f1 f2 s).1.cxnLst.isSome) := by
  constructor
  · intro g i h
    unfold remove_node
    rw [h]
  · intro g parent ids f1 f2 s
    unfold add_node
    dsimp only
    apply synchronize_some
    case h1 =>
      refine (auto_create_some _ _ _ _ _ ?_ ?_).1 <;> split <;> simp
    case h2 =>
      refine (auto_create_some _ _ _ _ _ ?_ ?_).2 <;> split <;> simp

/-- C4 witness: the removal branch applied to the entirely empty diagram. -/
theorem C4_structural_absence_witness :
    remove_node gEmpty (-3) = Except.error RemoveError.noNodes ∧
    (add_node gEmpty .root idsA noPres noPres "PO").1.ptLst.isSome :=
  ⟨C4_structural_absence.1 gEmpty (-3) (by decide),
   (C4_structural_absence.2 gEmpty .root idsA noPres noPres "PO").1⟩

/-! ### Claim C5 -/

/-- C5 counterexample: `remove_node` is a mutating facade call but does not
run the style-count refresh; after removing `A` from `gC1` the surviving
`textRect` presentation point still carries `presStyleCnt = "2"` although
only one data node remains. -/
theorem C5_style_cnt_cex :
    (remove_node gC1 0).map (fun r => (textrect_style_cnts r, countDataPts (pt_lst r))) =
      Except.ok ([some "2"], 1) := by
  decide

theorem set_style_cnt_ptype (c : Nat) (p : Pt) : (set_style_cnt c p).ptype = p.ptype := by
  rcases p with ⟨mid, pt, cx, _ | pr⟩
  · unfold set_style_cnt
    split <;> rfl
  · unfold set_style_cnt
    dsimp only
    split
    · split <;> rfl
    · rfl

theorem set_style_cnt_presName (c : Nat) (p : Pt) :
    (set_style_cnt c p).presNameOf = p.presNameOf := by
  rcases p with ⟨mid, pt, cx, _ | pr⟩
  · unfold set_style_cnt
    split <;> rfl
  · unfold set_style_cnt
    dsimp only
    split
    · split <;> rfl
    · rfl

theorem set_style_cnt_modelId (c : Nat) (p : Pt) : (set_style_cnt c p).modelId = p.modelId := by
  rcases p with ⟨mid, pt, cx, _ | pr⟩
  · unfold set_style_cnt
    split <;> rfl
  · unfold set_style_cnt
    dsimp only
    split
    · split <;> rfl
    · rfl

theorem set_style_cnt_of_hit (c : Nat) (p : Pt)
    (h : (p.ptype == some "pres" &&
      (p.presNameOf == some "pictRect" || p.presNameOf == some "textRect")) = true) :
    (set_style_cnt c p).styleCntOf = some (toString c) := by
  rcases p with ⟨mid, pt, cx, _ | pr⟩
  · exfalso
    simp [Pt.presNameOf] at h
  · rcases Bool.and_eq_true_iff.mp h with ⟨h1, h2⟩
    simp only [Pt.presNameOf] at h2
    simp [set_style_cnt, Pt.styleCntOf, h1, h2]

theorem set_style_cnt_of_miss (c : Nat) (p : Pt)
    (h : (p.ptype == some "pres" &&
      (p.presNameOf == some "pictRect" || p.presNameOf == some "textRect")) = false) :
    set_style_cnt c p = p := by
  rcases p with ⟨mid, pt, cx, _ | pr⟩
  · unfold set_style_cnt
    split <;> rfl
  · simp only [Pt.presNameOf] at h
    rcases Bool.and_eq_false_iff.mp h with h1 | h2
    · simp [set_style_cnt, h1]
    · unfold set_style_cnt
      dsimp only
      split
      · rw [h2]
        simp
      · rfl

theorem countP_filter_of_imp (p q : α → Bool) (h : ∀ a, p a = true → q a = true)
    (l : List α) : List.countP p (l.filter q) = List.countP p l := by
  induction l with
  | nil => rfl
  | cons a l ih =>
    rcases hq : q a with _ | _
    · have hp : p a = false := by
        rcases hpa : p a with _ | _
        · rfl
        · exact absurd (h a hpa) (by simp [hq])
      simp [List.filter_cons, hq, List.countP_cons, hp, ih]
    · simp [List.filter_cons, hq, List.countP_cons, ih]

theorem countDataPts_map_set (c : Nat) (ptl : List Pt) :
    countDataPts (ptl.map (set_style_cnt c)) = countDataPts ptl := by
  induction ptl with
  | nil => rfl
  | cons a l ih =>
    simp only [List.map_cons, countDataPts, List.countP_cons] at ih ⊢
    rw [ih, set_style_cnt_ptype]

theorem countDataPts_sync_stage (ptl : List Pt) (cxl : List Cxn) :
    countDataPts (sync_stage_pts ptl cxl) = countDataPts ptl := by
  unfold sync_stage_pts remove_transition_pts remove_unreferenced_pres_nodes
  unfold countDataPts
  rw [countP_filter_of_imp, countP_filter_of_imp]
  · exact countDataPts_map_set _ _
  · intro a ha
    simp only [Bool.not_eq_true', Bool.or_eq_false_iff, beq_eq_false_iff_ne] at ha
    obtain ⟨⟨⟨hpres, hpar⟩, hsib⟩, hdoc⟩ := ha
    simp [hpres]
  · intro a ha
    simp only [Bool.not_eq_true', Bool.or_eq_false_iff, beq_eq_false_iff_ne] at ha
    obtain ⟨⟨⟨hpres, hpar⟩, hsib⟩, hdoc⟩ := ha
    simp [hpar, hsib]

theorem sync_core_fst (ptl : List Pt) (cxl : List Cxn) :
    (sync_core ptl cxl).1 = sync_stage_pts ptl cxl := by
  unfold sync_core
  dsimp only
  split <;> rfl

/-- C5 amended: the style-count refresh belongs to the normalization pass
(`synchronize_presof_ordering`, which `add_node` runs but `remove_node`
does not): in its output every surviving `pictRect`/`textRect` presentation
point has `presStyleCnt` equal to the count of points whose type attribute
is none of `pres`/`parTrans`/`sibTrans`/`doc` (not only `DataNode` points),
every other point passes through unchanged, and the pass preserves that
count. -/
theorem C5_style_cnt_refresh (ptl : List Pt) (cxl : List Cxn) (p : Pt)
    (hmem : p ∈ (sync_core ptl cxl).1) :
    ((p.ptype == some "pres" &&
        (p.presNameOf == some "pictRect" || p.presNameOf == some "textRect")) = true →
      p.styleCntOf = some (toString (countDataPts ptl))) ∧
    ((p.ptype == some "pres" &&
        (p.presNameOf == some "pictRect" || p.presNameOf == some "textRect")) = false →
      p ∈ ptl) ∧
    countDataPts (sync_core ptl cxl).1 = countDataPts ptl := by
  rw [sync_core_fst] at hmem ⊢
  have hmap : p ∈ ptl.map (set_style_cnt (countDataPts ptl)) := by
    unfold sync_stage_pts remove_transition_pts remove_unreferenced_pres_nodes at hmem
    exact (List.mem_filter.mp (List.mem_filter.mp hmem).1).1
  rcases List.mem_map.mp hmap with ⟨p0, hp0, hpe⟩
  have hcond : (p.ptype == some "pres" &&
      (p.presNameOf == some "pictRect" || p.presNameOf == some "textRect")) =
    (p0.ptype == some "pres" &&
      (p0.presNameOf == some "pictRect" || p0.presNameOf == some "textRect")) := by
    rw [← hpe, set_style_cnt_ptype, set_style_cnt_presName]
  refine ⟨?_, ?_, countDataPts_sync_stage ptl cxl⟩
  · intro h
    rw [← hpe]
    exact set_style_cnt_of_hit _ _ (by rw [← hcond]; exact h)
  · intro h
    have hid : set_style_cnt (countDataPts ptl) p0 = p0 :=
      set_style_cnt_of_miss _ _ (by rw [← hcond]; exact h)
    rw [← hpe, hid]
    exact hp0

/-- C5 witness: in the normalization of `gC1`'s lists, the `textRect`
presentation point indeed carries the refreshed count. -/
theorem C5_style_cnt_refresh_witness :
    ({ modelId := some "T", ptype := some "pres", cxnId := none,
       prSet := some { presAssocID := some "B", presName := some "textRect",
                       presStyleCnt := some "2", presStyleIdx := some "1",
                       other := [] } } : Pt).styleCntOf =
      some (toString (countDataPts (pt_lst gC1))) :=
  (C5_style_cnt_refresh (pt_lst gC1) (cxn_lst gC1)
    { modelId := some "T", ptype := some "pres", cxnId := none,
      prSet := some { presAssocID := some "B", presName := some "textRect",
                      presStyleCnt := some "2", presStyleIdx := some "1",
                      other := [] } } (by decide)).1 (by decide)

/-! ### Claim C9 -/

/-- C9 counterexample: on the document-less diagram `gC9` (whose last
editable node `B` has an untyped connection from `A`), `add_node` resolves
`A` as parent and does create a `ParentChild` edge, contrary to the claim
that parent resolution yields no parent on every document-less graph. -/
theorem C9_no_doc_cex :
    untyped_srcords gC9 = [some "0"] ∧
    untyped_srcords (add_node gC9 .noParent idsN noPres noPres "PO").1 =
      [some "0", some "1"] :=
  ⟨by decide, by decide⟩

theorem ptype_doc_eq (p : Pt) : (p.ptype == some "doc") = (p.typeProp == "doc") := by
  rcases hp : p.ptype with _ | s
  · simp [Pt.typeProp, hp]
  · simp [Pt.typeProp, hp]

theorem find_doc_id_none (P : List Pt) (C : List Cxn)
    (h : ∀ p ∈ P, (p.ptype == some "doc") = false) :
    find_doc_id (sync_stage_pts P C) = none := by
  unfold find_doc_id
  have hfind : (sync_stage_pts P C).find? (fun p => p.ptype == some "doc") = none := by
    rw [List.find?_eq_none]
    intro p hp
    unfold sync_stage_pts remove_transition_pts remove_unreferenced_pres_nodes at hp
    have hmap : p ∈ P.map (set_style_cnt (countDataPts P)) :=
      (List.mem_filter.mp (List.mem_filter.mp hp).1).1
    rcases List.mem_map.mp hmap with ⟨p0, hp0, hpe⟩
    have : p.ptype = p0.ptype := by rw [← hpe, set_style_cnt_ptype]
    simp only [this, h p0 hp0]
    simp
  rw [hfind]
  rfl

theorem auto_create_none (g : CT_DataModel) (newId : String) (f1 f2 : Nat → String)
    (s : String)
    (h : ((editable_nodes g).findSome? (fun n =>
      if !(n.modelIdProp == newId) then
        if (pt_lst g).any (fun p =>
            p.ptype == some "pres" && p.presAssoc == some n.modelIdProp) then
          some n.modelIdProp
        else none
      else none)) = none) :
    auto_create_presentation_nodes g newId f1 f2 s = g := by
  unfold auto_create_presentation_nodes
  dsimp only
  rw [h]
  rfl

/-- C9 amended: on a diagram with no `Document` point and no editable node
(so parent resolution cannot yield any point), `add_node` completes without
error: it returns a handle carrying the new node's id, creates no
`ParentChild` connection (the connection list is unchanged), and the new
data node is present in the result — while the two freshly created
transition points do not survive the normalization pass, which purges them
as unreferenced (assuming their fresh ids are not already referenced as
transition ids by existing connections). -/
theorem C9_no_doc_add_node (g : CT_DataModel) (ids : NewIds) (f1 f2 : Nat → String)
    (s : String) (hdoc : get_doc_node g = none) (hed : editable_nodes g = [])
    (hpar : (trans_used (cxn_lst g)).contains ids.parTransId = false)
    (hsib : (trans_used (cxn_lst g)).contains ids.sibTransId = false) :
    (add_node g .noParent ids f1 f2 s).2 = ids.nodeId ∧
    (add_node g .noParent ids f1 f2 s).1.cxnLst = some (cxn_lst g) ∧
    mk_data_pt ids.nodeId ∈ pt_lst (add_node g .noParent ids f1 f2 s).1 ∧
    mk_trans_pt ids.parTransId "parTrans" ids.cxnId ∉
      pt_lst (add_node g .noParent ids f1 f2 s).1 ∧
    mk_trans_pt ids.sibTransId "sibTrans" ids.cxnId ∉
      pt_lst (add_node g .noParent ids f1 f2 s).1 := by
  have hres : resolve_parent_node { ptLst := g.ptLst, cxnLst := some (cxn_lst g) }
      ParentSel.noParent = none := by
    unfold resolve_parent_node
    have he : editable_nodes { ptLst := g.ptLst, cxnLst := some (cxn_lst g) } =
        editable_nodes g := rfl
    rw [he, hed]
    simp only [List.getLast?_nil]
    exact hdoc
  have hadd : add_node g .noParent ids f1 f2 s =
      ({ ptLst := some (sync_stage_pts (pt_lst g ++
          [mk_data_pt ids.nodeId, mk_trans_pt ids.parTransId "parTrans" ids.cxnId,
           mk_trans_pt ids.sibTransId "sibTrans" ids.cxnId]) (cxn_lst g)),
         cxnLst := some (cxn_lst g) }, ids.nodeId) := by
    unfold add_node
    dsimp only
    rw [hres]
    dsimp only
    have e2 : pt_lst ⟨some (pt_lst ⟨g.ptLst, some (cxn_lst g)⟩), some (cxn_lst g)⟩ =
        pt_lst g := rfl
    rw [e2]
    set P := pt_lst g ++
      [mk_data_pt ids.nodeId, mk_trans_pt ids.parTransId "parTrans" ids.cxnId,
       mk_trans_pt ids.sibTransId "sibTrans" ids.cxnId] with hP
    have hauto : auto_create_presentation_nodes
        { ptLst := some P, cxnLst := some (cxn_lst g) } ids.nodeId f1 f2 s =
        { ptLst := some P, cxnLst := some (cxn_lst g) } := by
      apply auto_create_none
      have heg : editable_nodes { ptLst := some P, cxnLst := some (cxn_lst g) } =
          List.filter Pt.isEditable P := rfl
      rw [heg, hP]
      rw [List.filter_append]
      have hfe : List.filter Pt.isEditable (pt_lst g) = [] := hed
      rw [hfe]
      simp only [List.nil_append]
      have h1 : Pt.isEditable (mk_data_pt ids.nodeId) = true := rfl
      have h2 : Pt.isEditable (mk_trans_pt ids.parTransId "parTrans" ids.cxnId) = false := rfl
      have h3 : Pt.isEditable (mk_trans_pt ids.sibTransId "sibTrans" ids.cxnId) = false := rfl
      rw [List.filter_cons, List.filter_cons, List.filter_cons]
      rw [h1, h2, h3]
      simp only [if_true, if_false]
      simp only [List.filter_nil]
      simp only [List.findSome?_cons, List.findSome?_nil]
      have hm : (mk_data_pt ids.nodeId).modelIdProp = ids.nodeId := rfl
      rw [hm]
      simp
    rw [hauto]
    unfold synchronize_presof_ordering
    dsimp only
    unfold sync_core
    dsimp only
    rw [find_doc_id_none]
    intro p hp
    rcases List.mem_append.mp hp with h | h
    · rw [ptype_doc_eq]
      unfold get_doc_node at hdoc
      rw [List.find?_eq_none] at hdoc
      simpa using hdoc p h
    · simp only [List.mem_cons, List.not_mem_nil, or_false] at h
      rcases h with h | h | h <;> rw [h] <;> rfl
  rw [hadd]
  refine ⟨rfl, rfl, ?_, ?_, ?_⟩
  · unfold sync_stage_pts remove_transition_pts remove_unreferenced_pres_nodes
    apply List.mem_filter.mpr
    constructor
    · apply List.mem_filter.mpr
      constructor
      · apply List.mem_map.mpr
        refine ⟨mk_data_pt ids.nodeId, by simp, ?_⟩
        apply set_style_cnt_of_miss
        rfl
      · simp [mk_data_pt, Pt.presAssoc, optTruthy, optMem]
    · rfl
  · intro hmem
    unfold sync_stage_pts remove_transition_pts at hmem
    have hq := (List.mem_filter.mp hmem).2
    rw [show (mk_trans_pt ids.parTransId "parTrans" ids.cxnId).ptype = some "parTrans" from rfl,
        show (mk_trans_pt ids.parTransId "parTrans" ids.cxnId).modelIdProp = ids.parTransId
          from rfl] at hq
    simp only [hpar] at hq
    simp at hq
  · intro hmem
    unfold sync_stage_pts remove_transition_pts at hmem
    have hq := (List.mem_filter.mp hmem).2
    rw [show (mk_trans_pt ids.sibTransId "sibTrans" ids.cxnId).ptype = some "sibTrans" from rfl,
        show (mk_trans_pt ids.sibTransId "sibTrans" ids.cxnId).modelIdProp = ids.sibTransId
          from rfl] at hq
    simp only [hsib] at hq
    simp at hq

/-- C9 witness: adding a node to the empty (but structurally present)
diagram returns the new node's id and leaves the connection list without
any new edge. -/
theorem C9_no_doc_add_node_witness :
    (add_node gW9 .noParent idsN noPres noPres "PO").2 = idsN.nodeId ∧
    (add_node gW9 .noParent idsN noPres noPres "PO").1.cxnLst = some (cxn_lst gW9) :=
  ⟨(C9_no_doc_add_node gW9 idsN noPres noPres "PO"
      (by decide) (by decide) (by decide) (by decide)).1,
   (C9_no_doc_add_node gW9 idsN noPres noPres "PO"
      (by decide) (by decide) (by decide) (by decide)).2.1⟩

/-! ### Claim C10 -/

/-- C10: a negative index `i` with `-n ≤ i < 0` (where `n ≥ 1` is the
number of editable nodes) is resolved by Python negative indexing, so
`remove_node i` behaves exactly like `remove_node (n + i)` — in particular
`remove_node (-1)` removes the last editable node — and does not fail with
`IndexError`. -/
theorem C10_negative_index (g : CT_DataModel) (ptl : List Pt) (i : Int)
    (hp : g.ptLst = some ptl) (hn : 1 ≤ (editable_enum ptl).length)
    (h1 : -((editable_enum ptl).length : Int) ≤ i) (h2 : i < 0) :
    remove_node g i = remove_node g (((editable_enum ptl).length : Int) + i) ∧
    ∃ g', remove_node g i = Except.ok g' := by
  have hk1 : pyIndex (editable_enum ptl).length i =
      some ((((editable_enum ptl).length : Int) + i).toNat) := by
    unfold pyIndex
    rw [if_neg, if_pos]
    · exact ⟨h1, h2⟩
    · omega
  have hk2 : pyIndex (editable_enum ptl).length (((editable_enum ptl).length : Int) + i) =
      some ((((editable_enum ptl).length : Int) + i).toNat) := by
    unfold pyIndex
    rw [if_pos]
    omega
  constructor
  · unfold remove_node
    rw [hp]
    dsimp only
    rw [hk1, hk2]
  · unfold remove_node
    rw [hp]
    dsimp only
    rw [hk1]
    dsimp only
    have hlt : ((((editable_enum ptl).length : Int) + i)).toNat <
        (editable_enum ptl).length := by omega
    obtain ⟨je, hje⟩ : ∃ je, (editable_enum ptl).get?
        (((((editable_enum ptl).length : Int) + i)).toNat) = some je :=
      ⟨_, List.get?_eq_get hlt⟩
    rw [hje]
    exact ⟨_, rfl⟩

/-- C10 witness: `remove_node (-1)` on the Scenario 2 diagram equals the
removal at positive index `n - 1` and succeeds. -/
theorem C10_negative_index_witness :
    remove_node scenario2 (-1) =
      remove_node scenario2 (((editable_enum (pt_lst scenario2)).length : Int) + -1) ∧
    ∃ g', remove_node scenario2 (-1) = Except.ok g' :=
  C10_negative_index scenario2 (pt_lst scenario2) (-1)
    (by decide) (by decide) (by decide) (by decide)

/-! ### Claim C6 -/

theorem findSome?_guard_none {α β : Type} (l : List α) (guard : α → Bool) (f : α → Option β)
    (h : ∀ c ∈ l, guard c = false) :
    l.findSome? (fun c => if guard c then f c else none) = none := by
  induction l with
  | nil => rfl
  | cons c cs ih =>
    have hc := h c (by simp)
    rw [List.findSome?_cons]
    simp only [hc, Bool.false_eq_true, if_false]
    exact ih (fun x hx => h x (by simp [hx]))

theorem findSome?_guard_eq_find_bind {α β : Type} (l : List α) (guard : α → Bool)
    (f : α → Option β) (h : l.countP guard ≤ 1) :
    l.findSome? (fun c => if guard c then f c else none) = (l.find? guard).bind f := by
  induction l with
  | nil => rfl
  | cons c cs ih =>
    rw [List.findSome?_cons, List.find?_cons]
    rcases hg : guard c with _ | _
    · simp only [hg, Bool.false_eq_true, if_false]
      rw [List.countP_cons, hg] at h
      simp only [Bool.false_eq_true, if_false, Nat.add_zero] at h
      exact ih h
    · simp only [hg, if_true]
      rcases hf : f c with _ | p
      · have hz : cs.countP guard = 0 := by
          rw [List.countP_cons, hg] at h
          simp only [if_true, Nat.add_one_le_iff] at h
          omega
        have hng : ∀ x ∈ cs, guard x = false := by
          intro x hx
          rcases hgx : guard x with _ | _
          · rfl
          · exfalso
            have := List.countP_pos_iff (p := guard) |>.mpr ⟨x, hx, hgx⟩
            omega
        rw [findSome?_guard_none cs guard f hng]
        simp [hf]
      · simp [hf]

/-- C6: parent resolution of `add_node` agrees with the specification's
description — `Root` resolves to the document root, an explicit node to
itself, `None` to the parent of the last editable node via `FindParent`
with the document root as fallback — provided the last editable node has at
most one inbound `ParentChild` connection (the spec's §3 invariant 6); and
the resolution only reads the point and connection lists, so performing it
on the graph with the lazily ensured connection list (as `add_node` does,
before any point or connection is created) equals performing it on the
original graph. -/
theorem C6_resolve_parent (g : CT_DataModel) (sel : ParentSel)
    (huniq : (match (editable_nodes g).getLast? with
      | some last => decide ((cxn_lst g).countP
          (fun c => isUntypedB c && c.destId == some last.modelIdProp) ≤ 1)
      | none => true) = true) :
    resolve_parent_node g sel = resolve_parent_spec g sel ∧
    resolve_parent_node { ptLst := g.ptLst, cxnLst := some (cxn_lst g) } sel =
      resolve_parent_node g sel := by
  constructor
  · cases sel with
    | root => rfl
    | explicitNode p => rfl
    | noParent =>
      unfold resolve_parent_node resolve_parent_spec
      dsimp only
      rcases hlast : (editable_nodes g).getLast? with _ | last
      · rfl
      · simp only [hlast] at huniq
        have hcnt : (cxn_lst g).countP
            (fun c => c.destId == some last.modelIdProp && isUntypedB c) ≤ 1 := by
          have hcomm : (fun c : Cxn => c.destId == some last.modelIdProp && isUntypedB c) =
              (fun c => isUntypedB c && c.destId == some last.modelIdProp) :=
            funext fun c => Bool.and_comm _ _
          rw [hcomm]
          exact of_decide_eq_true huniq
        dsimp only
        rw [findSome?_guard_eq_find_bind (cxn_lst g)
          (fun c => c.destId == some last.modelIdProp && isUntypedB c)
          (fun c => (pt_lst g).find? (fun p => some p.modelIdProp == c.srcId)) hcnt]
        unfold find_parent_spec
        have hcomm : (fun c : Cxn => c.destId == some last.modelIdProp && isUntypedB c) =
            (fun c => isUntypedB c && c.destId == some last.modelIdProp) :=
          funext fun c => Bool.and_comm _ _
        rw [hcomm]
        unfold document_root get_doc_node
        rfl
  · cases sel <;> rfl

/-- C6 witness: resolution with no explicit parent on the Scenario 2
diagram (whose last editable node Beta has exactly one inbound parent-child
connection). -/
theorem C6_resolve_parent_witness :
    resolve_parent_node scenario2 .noParent = resolve_parent_spec scenario2 .noParent :=
  (C6_resolve_parent scenario2 .noParent (by decide)).1

/-! ### Claim C7 -/

/-- C7: `create_connection` appends exactly one connection whose `srcOrd`
is the count of `ParentChild` (untyped) connections already sourced at the
parent and whose `destOrd` is `"0"`, carrying the given endpoints and
transition references; consequently in Scenario 2 the second `add_node`
under the document root produces Beta's edge with `srcOrd = "1"` (and the
editable node count is 2). -/
theorem C7_create_connection_src_ord :
    (∀ (cxl : List Cxn) (parentId nodeId cxnId ptid stid : String),
      ∃ c, create_connection cxl parentId nodeId cxnId ptid stid = cxl ++ [c] ∧
        c.srcOrd = some (toString (cxl.countP
          (fun x => isUntypedB x && x.srcId == some parentId))) ∧
        c.destOrd = some "0" ∧ c.srcId = some parentId ∧ c.destId = some nodeId ∧
        c.modelId = some cxnId ∧ c.parTransId = some ptid ∧ c.sibTransId = some stid) ∧
    (cxn_lst scenario2).filter isUntypedB = [cxnAlpha, cxnBeta] ∧
    (editable_nodes scenario2).length = 2 := by
  refine ⟨?_, by decide, by decide⟩
  intro cxl parentId nodeId cxnId ptid stid
  refine ⟨_, rfl, ?_, rfl, rfl, rfl, rfl, rfl, rfl⟩
  have hcomm : (fun x : Cxn => isUntypedB x && x.srcId == some parentId) =
      (fun c => c.srcId == some parentId && isUntypedB c) :=
    funext fun c => Bool.and_comm _ _
  rw [hcomm, List.countP_eq_length_filter]

/-! ### Claim C8 -/

/-- C8 counterexample: on `gC8` the graph contains `presOf` connections —
one of them carrying the truthy layout identifier `L` — and the call to
`create_presentation_nodes` produces a `textRect` clone, yet no `presOf`
connection is created: `_create_presof_connection` stops at the first
`presOf` connection in the list, whose `presId` is falsy, and bails out,
so the claim's promise of exactly one inherited `presOf` connection
fails. -/
theorem C8_presof_inherit_cex :
    ((cxn_lst gC8).filter isPresOfB).length = 2 ∧
    (∃ c ∈ cxn_lst gC8, isPresOfB c = true ∧ truthyOpt c.presId = some "L") ∧
    truthyOpt (textRect_clone_id (sorted_templates (pt_lst gC8) (some "TPL"))
      (fun _ => "Q")) = some "Q" ∧
    (cxn_lst (create_presentation_nodes gC8 "NEW" (some "TPL")
        (fun _ => "Q") noPres "PO")).filter isPresOfB =
      (cxn_lst gC8).filter isPresOfB := by
  decide

theorem mirror_cxn_type (tids : List (Option String)) (pids : List String)
    (freshId : String) (c : Cxn) : (mirror_cxn tids pids freshId c).type = c.type := rfl

theorem mirror_go_no_presof (tids : List (Option String)) (pids : List String)
    (f : Nat → String) : ∀ (m : Nat) (tcs : List Cxn), (∀ c ∈ tcs, isPresOfB c = false) →
    ∀ c ∈ mirror_go tids pids f m tcs, isPresOfB c = false := by
  intro m tcs
  induction tcs generalizing m with
  | nil =>
    intro _ c hc
    simp [mirror_go] at hc
  | cons a l ih =>
    intro h c hc
    rw [mirror_go] at hc
    rcases List.mem_cons.mp hc with hc | hc
    · rw [hc]
      unfold isPresOfB
      rw [mirror_cxn_type]
      exact h a (by simp)
    · exact ih (m + 1) (fun x hx => h x (by simp [hx])) c hc

theorem filter_eq_nil_of_no (p : Cxn → Bool) (l : List Cxn)
    (h : ∀ c ∈ l, p c = false) : l.filter p = [] := by
  rw [List.filter_eq_nil_iff]
  intro c hc
  simp [h c hc]

theorem find?_eq_none_of_no (p : Cxn → Bool) (l : List Cxn)
    (h : ∀ c ∈ l, p c = false) : l.find? p = none := by
  rw [List.find?_eq_none]
  intro c hc
  simp [h c hc]

theorem tcs_no_presof (cxl : List Cxn) (tids : List (Option String)) :
    ∀ c ∈ cxl.filter (fun c =>
      !(c.type == some "presOf") && (tids.contains c.srcId || tids.contains c.destId)),
    isPresOfB c = false := by
  intro c hc
  have := (List.mem_filter.mp hc).2
  unfold isPresOfB
  rcases Bool.and_eq_true_iff.mp this with ⟨h1, _⟩
  simpa using h1

/-- C8 amended: in `create_presentation_nodes`, when the graph holds no
`presOf` connection, no `presOf` connection is created (the call is total,
so it completes without error); when a `textRect` clone is produced and the
FIRST `presOf` connection in the list has a truthy `presId`, exactly one
new `presOf` connection is appended, with source the new data node,
destination the `textRect` clone, `srcOrd = destOrd = "0"`, and `presId`
inherited from that first `presOf` connection. (The original claim — that
holding any `presOf` connection suffices and that the layout id is
inherited from an existing `presOf` — is refuted by the counterexample:
when the first `presOf` connection's `presId` is falsy, nothing is
created, even if a later `presOf` connection carries a layout id.) -/
theorem C8_presof_creation :
    (∀ (g : CT_DataModel) (cxl : List Cxn) (dataId : String) (tid : Option String)
      (f1 f2 : Nat → String) (pcid : String),
      g.cxnLst = some cxl → cxl.find? isPresOfB = none →
      (cxn_lst (create_presentation_nodes g dataId tid f1 f2 pcid)).filter isPresOfB =
        cxl.filter isPresOfB) ∧
    (∀ (g : CT_DataModel) (cxl : List Cxn) (dataId : String) (tid : Option String)
      (f1 f2 : Nat → String) (pcid : String) (c0 : Cxn) (tr prid : String),
      g.cxnLst = some cxl →
      truthyOpt (textRect_clone_id (sorted_templates (pt_lst g) tid) f1) = some tr →
      cxl.find? isPresOfB = some c0 → truthyOpt c0.presId = some prid →
      (cxn_lst (create_presentation_nodes g dataId tid f1 f2 pcid)).filter isPresOfB =
        cxl.filter isPresOfB ++ [mk_presof_cxn pcid dataId tr prid]) := by
  have hmir : ∀ (g : CT_DataModel) (cxl : List Cxn) (tid : Option String)
      (f1 f2 : Nat → String), g.cxnLst = some cxl →
      (sorted_templates (pt_lst g) tid).isEmpty = false →
      ∀ (P : List Pt),
      mirror_connections { ptLst := some P, cxnLst := g.cxnLst }
        ((sorted_templates (pt_lst g) tid).map (fun t => t.modelId))
        ((sorted_templates (pt_lst g) tid).enum.map (fun kt => f1 kt.1)) f2 =
      { ptLst := some P, cxnLst := some (cxl ++
          mirror_go ((sorted_templates (pt_lst g) tid).map (fun t => t.modelId))
            ((sorted_templates (pt_lst g) tid).enum.map (fun kt => f1 kt.1)) f2 0
            (cxl.filter (fun c => !(c.type == some "presOf") &&
              (((sorted_templates (pt_lst g) tid).map (fun t => t.modelId)).contains c.srcId ||
               ((sorted_templates (pt_lst g) tid).map (fun t => t.modelId)).contains c.destId)))) } := by
    intro g cxl tid f1 f2 hg hne P
    unfold mirror_connections
    rw [if_neg]
    · rw [hg]
    · intro hcontra
      rcases Bool.or_eq_true_iff.mp hcontra with h | h
      · rw [List.isEmpty_eq_true] at h
        have : sorted_templates (pt_lst g) tid = [] := by
          rcases hT : sorted_templates (pt_lst g) tid with _ | ⟨a, l⟩
          · rfl
          · rw [hT] at h
            simp at h
        rw [this] at hne
        simp at hne
      · rw [Bool.not_eq_eq_eq_not, Bool.not_true, beq_eq_false_iff_ne] at h
        apply h
        simp [List.enum_length]
  have hnews : ∀ (cxl : List Cxn) (tids : List (Option String)) (pids : List String)
      (f2 : Nat → String),
      ∀ c ∈ mirror_go tids pids f2 0 (cxl.filter (fun c => !(c.type == some "presOf") &&
        (tids.contains c.srcId || tids.contains c.destId))), isPresOfB c = false := by
    intro cxl tids pids f2
    exact mirror_go_no_presof tids pids f2 0 _ (tcs_no_presof cxl tids)
  constructor
  · intro g cxl dataId tid f1 f2 pcid hg hnone
    unfold create_presentation_nodes
    dsimp only
    split
    · rw [cxn_lst, hg]
    · next hne =>
      rw [Bool.not_eq_true] at hne
      rw [hmir g cxl tid f1 f2 hg hne]
      have hfnews := find?_eq_none_of_no isPresOfB _ (hnews cxl
        ((sorted_templates (pt_lst g) tid).map (fun t => t.modelId))
        ((sorted_templates (pt_lst g) tid).enum.map (fun kt => f1 kt.1)) f2)
      have hfilnews := filter_eq_nil_of_no isPresOfB _ (hnews cxl
        ((sorted_templates (pt_lst g) tid).map (fun t => t.modelId))
        ((sorted_templates (pt_lst g) tid).enum.map (fun kt => f1 kt.1)) f2)
      split
      · unfold create_presof_connection
        dsimp only
        rw [List.find?_append, hnone, Option.none_or, hfnews]
        dsimp only
        rw [cxn_lst]
        rw [List.filter_append, hfilnews, List.append_nil]
      · rw [cxn_lst]
        rw [List.filter_append, hfilnews, List.append_nil]
  · intro g cxl dataId tid f1 f2 pcid c0 tr prid hg htr hfind hprid
    have hne : (sorted_templates (pt_lst g) tid).isEmpty = false := by
      rcases hT : sorted_templates (pt_lst g) tid with _ | ⟨a, l⟩
      · rw [hT] at htr
        simp [textRect_clone_id, truthyOpt] at htr
      · simp
    unfold create_presentation_nodes
    dsimp only
    rw [if_neg (by rw [hne]; simp)]
    rw [hmir g cxl tid f1 f2 hg hne, htr]
    dsimp only
    have hfnews := find?_eq_none_of_no isPresOfB _ (hnews cxl
      ((sorted_templates (pt_lst g) tid).map (fun t => t.modelId))
      ((sorted_templates (pt_lst g) tid).enum.map (fun kt => f1 kt.1)) f2)
    have hfilnews := filter_eq_nil_of_no isPresOfB _ (hnews cxl
      ((sorted_templates (pt_lst g) tid).map (fun t => t.modelId))
      ((sorted_templates (pt_lst g) tid).enum.map (fun kt => f1 kt.1)) f2)
    unfold create_presof_connection
    dsimp only
    rw [List.find?_append, hfind]
    rw [Option.or_some]
    dsimp only
    rw [hprid]
    dsimp only
    rw [cxn_lst]
    rw [List.filter_append, List.filter_append, hfilnews]
    simp only [List.append_nil]
    rw [show (List.filter isPresOfB [mk_presof_cxn pcid dataId tr prid]) =
      [mk_presof_cxn pcid dataId tr prid] from rfl]

/-- C8 witness: on the template diagram without any `presOf` connection no
`presOf` connection appears, and on `gW8` exactly the inherited one is
appended. -/
theorem C8_presof_creation_witness :
    (cxn_lst (create_presentation_nodes gW8a "NEW" (some "TPL")
        (fun _ => "Q") noPres "PO")).filter isPresOfB =
      (cxn_lst gW8a).filter isPresOfB ∧
    (cxn_lst (create_presentation_nodes gW8 "NEW" (some "TPL")
        (fun _ => "Q") noPres "PO")).filter isPresOfB =
      (cxn_lst gW8).filter isPresOfB ++ [mk_presof_cxn "PO" "NEW" "Q" "L"] :=
  ⟨C8_presof_creation.1 gW8a (cxn_lst gW8a) "NEW" (some "TPL") (fun _ => "Q") noPres "PO"
      (by decide) (by decide),
   C8_presof_creation.2 gW8 (cxn_lst gW8) "NEW" (some "TPL") (fun _ => "Q") noPres "PO"
      { modelId := some "PC1", type := some "presOf", srcId := some "TPL",
        destId := some "T1", srcOrd := some "0", destOrd := some "0",
        parTransId := none, sibTransId := none, presId := some "L", id := some "1" }
      "Q" "L" (by decide) (by decide) (by decide) (by decide)⟩

theorem toDigitsCore_ne_nil (b : Nat) :
    ∀ (f n : Nat) (acc : List Char), acc ≠ [] → Nat.toDigitsCore b f n acc ≠ [] := by
  intro f
  induction f with
  | zero =>
    intro n acc h
    exact h
  | succ f ih =>
    intro n acc h
    unfold Nat.toDigitsCore
    dsimp only
    split
    · simp
    · exact ih _ _ (by simp)

theorem nat_repr_ne_empty (n : Nat) : Nat.repr n ≠ "" := by
  unfold Nat.repr Nat.toDigits
  intro h
  have hd : Nat.toDigitsCore 10 (n + 1) n [] ≠ [] := by
    unfold Nat.toDigitsCore
    dsimp only
    split
    · simp
    · exact toDigitsCore_ne_nil 10 n (n / 10) _ (by simp)
  apply hd
  have := congrArg String.data h
  simpa [List.asString] using this

theorem int_toString_ne_empty (i : Int) : toString i ≠ "" := by
  cases i with
  | ofNat m =>
    show toString m ≠ ""
    exact nat_repr_ne_empty m
  | negSucc m =>
    show "-" ++ toString (m + 1) ≠ ""
    intro h
    have := congrArg String.data h
    rw [String.data_append] at this
    simp at this

theorem optTruthy_toString_int (i : Int) : optTruthy (some (toString i)) = true := by
  unfold optTruthy
  dsimp only
  rw [beq_eq_false_iff_ne.mpr (int_toString_ne_empty i)]
  rfl

theorem ensure_go_id_truthy :
    ∀ (l : List Cxn) (n : Int) (c : Cxn), c ∈ ensure_go n l → optTruthy c.id = true := by
  intro l
  induction l with
  | nil =>
    intro n c hc
    simp [ensure_go] at hc
  | cons a rest ih =>
    intro n c hc
    rw [ensure_go] at hc
    split at hc
    · next ht =>
      rcases List.mem_cons.mp hc with hc | hc
      · rw [hc]; exact ht
      · exact ih _ _ hc
    · rcases List.mem_cons.mp hc with hc | hc
      · rw [hc]
        exact optTruthy_toString_int n
      · exact ih _ _ hc

theorem ensure_go_all_truthy :
    ∀ (l : List Cxn) (n : Int), (∀ c ∈ l, optTruthy c.id = true) → ensure_go n l = l := by
  intro l
  induction l with
  | nil => intro n _; rfl
  | cons a rest ih =>
    intro n h
    rw [ensure_go]
    rw [if_pos (h a (by simp))]
    rw [ih n (fun c hc => h c (by simp [hc]))]

theorem ensure_connection_ids_of_ensure_go (l : List Cxn) (n : Int) :
    ensure_connection_ids (ensure_go n l) = ensure_go n l :=
  ensure_go_all_truthy _ _ (fun c hc => ensure_go_id_truthy _ _ _ hc)

theorem assignElem_type (as : List (Nat × Nat)) (i : Nat) (c : Cxn) :
    (assignElem as i c).type = c.type := by
  unfold assignElem
  split <;> rfl

theorem assignElem_srcId (as : List (Nat × Nat)) (i : Nat) (c : Cxn) :
    (assignElem as i c).srcId = c.srcId := by
  unfold assignElem
  split <;> rfl

theorem assignElem_destId (as : List (Nat × Nat)) (i : Nat) (c : Cxn) :
    (assignElem as i c).destId = c.destId := by
  unfold assignElem
  split <;> rfl

theorem assignElem_parTransId (as : List (Nat × Nat)) (i : Nat) (c : Cxn) :
    (assignElem as i c).parTransId = c.parTransId := by
  unfold assignElem
  split <;> rfl

theorem assignElem_sibTransId (as : List (Nat × Nat)) (i : Nat) (c : Cxn) :
    (assignElem as i c).sibTransId = c.sibTransId := by
  unfold assignElem
  split <;> rfl


theorem referenced_ids_cons (c : Cxn) (l : List Cxn) :
    referenced_ids (c :: l) =
      ((match truthyOpt c.srcId with | some s => [s] | none => []) ++
       (match truthyOpt c.destId with | some s => [s] | none => [])) ++ referenced_ids l := by
  rw [referenced_ids, referenced_ids, List.flatMap_cons]

theorem trans_used_cons (c : Cxn) (l : List Cxn) :
    trans_used (c :: l) =
      ((match truthyOpt c.parTransId with | some s => [s] | none => []) ++
       (match truthyOpt c.sibTransId with | some s => [s] | none => [])) ++ trans_used l := by
  rw [trans_used, trans_used, List.flatMap_cons]

theorem referenced_ids_ensure_go :
    ∀ (l : List Cxn) (n : Int), referenced_ids (ensure_go n l) = referenced_ids l := by
  intro l
  induction l with
  | nil => intro n; rfl
  | cons a rest ih =>
    intro n
    rw [ensure_go]
    split
    · rw [referenced_ids_cons, referenced_ids_cons, ih n]
    · rw [referenced_ids_cons, referenced_ids_cons, ih (n + 1)]

theorem trans_used_ensure_go :
    ∀ (l : List Cxn) (n : Int), trans_used (ensure_go n l) = trans_used l := by
  intro l
  induction l with
  | nil => intro n; rfl
  | cons a rest ih =>
    intro n
    rw [ensure_go]
    split
    · rw [trans_used_cons, trans_used_cons, ih n]
    · rw [trans_used_cons, trans_used_cons, ih (n + 1)]

theorem referenced_ids_apply_go :
    ∀ (l : List Cxn) (as : List (Nat × Nat)) (i : Nat),
    referenced_ids (apply_children_go [] as i l) = referenced_ids l := by
  intro l
  induction l with
  | nil => intro as i; rfl
  | cons a rest ih =>
    intro as i
    rw [apply_children_go]
    rw [if_neg (by simp)]
    rw [referenced_ids_cons, referenced_ids_cons, ih as (i + 1)]
    rw [assignElem_srcId, assignElem_destId]

theorem trans_used_apply_go :
    ∀ (l : List Cxn) (as : List (Nat × Nat)) (i : Nat),
    trans_used (apply_children_go [] as i l) = trans_used l := by
  intro l
  induction l with
  | nil => intro as i; rfl
  | cons a rest ih =>
    intro as i
    rw [apply_children_go]
    rw [if_neg (by simp)]
    rw [trans_used_cons, trans_used_cons, ih as (i + 1)]
    rw [assignElem_parTransId, assignElem_sibTransId]

theorem child_scan_go_cons (P : List Pt) (m : List (String × String)) (pid : String)
    (i : Nat) (c : Cxn) (cs : List Cxn) :
    child_scan_go P m pid i (c :: cs) =
      if (c.type == some "presParOf" && c.srcId == some pid) = true then
        (i, classify_child P m c.destId) :: child_scan_go P m pid (i + 1) cs
      else child_scan_go P m pid (i + 1) cs := rfl

theorem child_scan_go_ensure (P : List Pt) (m : List (String × String)) (pid : String) :
    ∀ (l : List Cxn) (i : Nat) (n : Int),
    child_scan_go P m pid i (ensure_go n l) = child_scan_go P m pid i l := by
  intro l
  induction l with
  | nil => intro i n; rfl
  | cons a rest ih =>
    intro i n
    rw [ensure_go]
    split
    · rw [child_scan_go_cons, child_scan_go_cons, ih (i + 1) n]
    · rw [child_scan_go_cons, child_scan_go_cons, ih (i + 1) (n + 1)]

theorem child_scan_go_apply (P : List Pt) (m : List (String × String)) (pid : String) :
    ∀ (l : List Cxn) (as : List (Nat × Nat)) (i : Nat),
    child_scan_go P m pid i (apply_children_go [] as i l) = child_scan_go P m pid i l := by
  intro l
  induction l with
  | nil => intro as i; rfl
  | cons a rest ih =>
    intro as i
    rw [apply_children_go, if_neg (by simp)]
    rw [child_scan_go_cons, child_scan_go_cons]
    rw [assignElem_type, assignElem_srcId, assignElem_destId, ih as (i + 1)]

theorem child_scan_go_pos (P : List Pt) (m : List (String × String)) (pid : String) :
    ∀ (l : List Cxn) (i j : Nat) (cl : ChildClass),
    (j, cl) ∈ child_scan_go P m pid i l →
    ∃ k c, j = i + k ∧ l.get? k = some c ∧ (c.type == some "presParOf") = true := by
  intro l
  induction l with
  | nil =>
    intro i j cl h
    simp [child_scan_go] at h
  | cons a rest ih =>
    intro i j cl h
    rw [child_scan_go_cons] at h
    split at h
    · next hg =>
      rcases List.mem_cons.mp h with h | h
      · refine ⟨0, a, ?_, rfl, ?_⟩
        · have := congrArg Prod.fst h
          simpa using this
        · exact (Bool.and_eq_true_iff.mp hg).1
      · rcases ih (i + 1) j cl h with ⟨k, c, hk, hget, ht⟩
        exact ⟨k + 1, c, by omega, hget, ht⟩
    · rcases ih (i + 1) j cl h with ⟨k, c, hk, hget, ht⟩
      exact ⟨k + 1, c, by omega, hget, ht⟩

theorem insSorted_mem {α : Type} (le : α → α → Bool) (y x : α) :
    ∀ (l : List α), x ∈ insSorted le y l → x = y ∨ x ∈ l := by
  intro l
  induction l with
  | nil =>
    intro h
    simp [insSorted] at h
    exact Or.inl h
  | cons a rest ih =>
    intro h
    rw [insSorted] at h
    split at h
    · rcases List.mem_cons.mp h with h | h
      · exact Or.inl h
      · exact Or.inr h
    · rcases List.mem_cons.mp h with h | h
      · exact Or.inr (by simp [h])
      · rcases ih h with h | h
        · exact Or.inl h
        · exact Or.inr (by simp [h])

theorem stableSort_mem {α : Type} (le : α → α → Bool) (x : α) :
    ∀ (l : List α), x ∈ stableSort le l → x ∈ l := by
  intro l
  induction l with
  | nil =>
    intro h
    simp [stableSort] at h
  | cons a rest ih =>
    intro h
    rw [stableSort] at h
    rcases insSorted_mem le a x _ h with h | h
    · simp [h]
    · exact List.mem_cons_of_mem _ (ih h)

theorem assigns_go_mem (j o : Nat) :
    ∀ (l : List (Int × Nat)) (n : Nat), (j, o) ∈ assigns_go n l → ∃ x ∈ l, x.2 = j := by
  intro l
  induction l with
  | nil =>
    intro n h
    simp [assigns_go] at h
  | cons a rest ih =>
    intro n h
    rw [assigns_go] at h
    rcases List.mem_cons.mp h with h | h
    · refine ⟨a, by simp, ?_⟩
      have := congrArg Prod.fst h
      simpa using this.symm
    · rcases ih (n + 1) h with ⟨x, hx, he⟩
      exact ⟨x, by simp [hx], he⟩

theorem child_assigns_mem_scan (scan : List (Nat × ChildClass)) (j o : Nat)
    (h : (j, o) ∈ child_assigns scan) : ∃ cl, (j, cl) ∈ scan := by
  unfold child_assigns at h
  rcases assigns_go_mem j o _ 0 h with ⟨x, hx, hxj⟩
  have hx2 := stableSort_mem _ _ _ hx
  rcases List.mem_filterMap.mp hx2 with ⟨ic, hic, hfc⟩
  cases hicc : ic.2 with
  | keep o2 =>
    rw [hicc] at hfc
    dsimp only at hfc
    have hx_eq := Option.some.inj hfc
    have h1 : ic.1 = j := by
      have h2 := congrArg Prod.snd hx_eq
      simp at h2
      rw [← hxj, h2]
    refine ⟨ChildClass.keep o2, ?_⟩
    rw [← h1, ← hicc]
    exact hic
  | drop =>
    rw [hicc] at hfc
    simp at hfc
  | skip =>
    rw [hicc] at hfc
    simp at hfc

theorem srcord_entry_set_id (d : String) (a : Cxn) (v : Option String) :
    srcord_entry d { a with id := v } = srcord_entry d a := rfl

theorem build_srcord_map_ensure_go (d : String) :
    ∀ (l : List Cxn) (n : Int),
    build_srcord_map (ensure_go n l) d = build_srcord_map l d := by
  intro l
  induction l with
  | nil => intro n; rfl
  | cons a rest ih =>
    intro n
    rw [ensure_go]
    split
    · unfold build_srcord_map
      rw [List.filterMap_cons, List.filterMap_cons]
      rw [show List.filterMap (srcord_entry d) (ensure_go n rest) =
        List.filterMap (srcord_entry d) rest from ih n]
    · unfold build_srcord_map
      rw [List.filterMap_cons, List.filterMap_cons]
      rw [show List.filterMap (srcord_entry d) (ensure_go (n + 1) rest) =
        List.filterMap (srcord_entry d) rest from ih (n + 1)]
      rw [srcord_entry_set_id]

theorem srcord_entry_presparof (d : String) (c : Cxn)
    (h : (c.type == some "presParOf") = true) : srcord_entry d c = none := by
  unfold srcord_entry isUntypedB
  rw [beq_iff_eq] at h
  rw [h]
  rfl

theorem lookupIdx_mem (as : List (Nat × Nat)) (i o : Nat)
    (h : lookupIdx as i = some o) : (i, o) ∈ as := by
  unfold lookupIdx at h
  rcases hf : as.find? (fun kv => kv.1 == i) with _ | kv
  · rw [hf] at h
    simp at h
  · rw [hf] at h
    simp at h
    have h1 := List.find?_some hf
    have h2 := List.mem_of_find?_eq_some hf
    simp only [beq_iff_eq] at h1
    have hkv : kv = (i, o) := by
      rcases kv with ⟨k1, k2⟩
      simp at h1 h ⊢
      exact ⟨h1, h⟩
    rw [← hkv]
    exact h2

theorem build_srcord_map_apply_go (d : String) :
    ∀ (l : List Cxn) (as : List (Nat × Nat)) (i : Nat),
    (∀ jo ∈ as, jo.1 < i ∨ ∃ k c, jo.1 = i + k ∧ l.get? k = some c ∧
      (c.type == some "presParOf") = true) →
    build_srcord_map (apply_children_go [] as i l) d = build_srcord_map l d := by
  intro l
  induction l with
  | nil => intro as i _; rfl
  | cons a rest ih =>
    intro as i H
    rw [apply_children_go, if_neg (by simp)]
    have hhead : srcord_entry d (assignElem as i a) = srcord_entry d a := by
      unfold assignElem
      rcases hlk : lookupIdx as i with _ | o
      · rfl
      · have hmem := lookupIdx_mem as i o hlk
        rcases H (i, o) hmem with hlt | ⟨k, c, hk, hget, ht⟩
        · omega
        · have hk0 : k = 0 := by omega
          rw [hk0] at hget
          simp only [List.get?_cons_zero, Option.some.injEq] at hget
          rw [← hget] at ht
          rw [srcord_entry_presparof d a ht]
          rw [srcord_entry_presparof d _ (by rw [show ({ a with
            srcOrd := some (toString o) } : Cxn).type = a.type from rfl]; exact ht)]
    unfold build_srcord_map
    rw [List.filterMap_cons, List.filterMap_cons, hhead]
    have htail : List.filterMap (srcord_entry d) (apply_children_go [] as (i + 1) rest) =
        List.filterMap (srcord_entry d) rest := by
      apply ih as (i + 1)
      intro jo hjo
      rcases H jo hjo with hlt | ⟨k, c, hk, hget, ht⟩
      · left; omega
      · rcases k with _ | k2
        · left; omega
        · right
          refine ⟨k2, c, by omega, ?_, ht⟩
          simpa using hget
    rw [htail]

theorem cxn_set_srcOrd_self (c : Cxn) (v : String) (h : c.srcOrd = some v) :
    { c with srcOrd := some v } = c := by
  cases c
  simp only at h
  rw [← h]

theorem assignElem_idem (as : List (Nat × Nat)) (i : Nat) (a : Cxn) :
    assignElem as i (assignElem as i a) = assignElem as i a := by
  unfold assignElem
  rcases hlk : lookupIdx as i with _ | o
  · rfl
  · exact cxn_set_srcOrd_self _ _ rfl

theorem assignElem_of_srcOrd (as : List (Nat × Nat)) (i : Nat) (c : Cxn)
    (h : ∀ o, lookupIdx as i = some o → c.srcOrd = some (toString o)) :
    assignElem as i c = c := by
  unfold assignElem
  rcases hlk : lookupIdx as i with _ | o
  · rfl
  · exact cxn_set_srcOrd_self _ _ (h o hlk)

theorem assignElem_set_id (as : List (Nat × Nat)) (i : Nat) (a : Cxn) (v : Option String) :
    assignElem as i { assignElem as i a with id := v } =
      { assignElem as i a with id := v } := by
  apply assignElem_of_srcOrd
  intro o hlk
  have h1 : ({ assignElem as i a with id := v } : Cxn).srcOrd = (assignElem as i a).srcOrd := rfl
  rw [h1]
  unfold assignElem
  rw [hlk]

theorem apply_go_ensure_apply_go :
    ∀ (l : List Cxn) (as : List (Nat × Nat)) (i : Nat) (n : Int),
    apply_children_go [] as i (ensure_go n (apply_children_go [] as i l)) =
      ensure_go n (apply_children_go [] as i l) := by
  intro l
  induction l with
  | nil => intro as i n; rfl
  | cons a rest ih =>
    intro as i n
    rw [apply_children_go, if_neg (by simp)]
    rw [ensure_go]
    split
    · rw [apply_children_go, if_neg (by simp)]
      rw [assignElem_idem]
      rw [ih as (i + 1) n]
    · rw [apply_children_go, if_neg (by simp)]
      rw [assignElem_set_id]
      rw [ih as (i + 1) (n + 1)]

theorem filter_map_comm {α : Type} (q : α → Bool) (g : α → α)
    (hq : ∀ a, q (g a) = q a) (l : List α) :
    List.filter q (l.map g) = (l.filter q).map g := by
  induction l with
  | nil => rfl
  | cons a rest ih =>
    rw [List.map_cons, List.filter_cons, List.filter_cons, hq a]
    split
    · rw [List.map_cons, ih]
    · exact ih

theorem filter_sandwich {α : Type} (p q : α → Bool) (l : List α) :
    List.filter p (List.filter q (List.filter p l)) = List.filter q (List.filter p l) := by
  rw [List.filter_filter, List.filter_filter, List.filter_filter]
  apply List.filter_congr
  intro a _
  cases hp : p a <;> cases hq : q a <;> simp [hp, hq]

theorem filter_self_idem {α : Type} (p : α → Bool) (l : List α) :
    List.filter p (List.filter p l) = List.filter p l := by
  rw [List.filter_filter]
  apply List.filter_congr
  intro a _
  cases hp : p a <;> simp [hp]

theorem set_style_cnt_of_already (c : Nat) (q : Pt)
    (hq : (q.ptype == some "pres" &&
      (q.presNameOf == some "pictRect" || q.presNameOf == some "textRect")) = true)
    (hcnt : q.styleCntOf = some (toString c)) : set_style_cnt c q = q := by
  rcases q with ⟨mid, pt, cx, _ | pr⟩
  · exfalso
    simp [Pt.presNameOf] at hq
  · rcases Bool.and_eq_true_iff.mp hq with ⟨h1, h2⟩
    simp only [Pt.presNameOf] at h2
    simp only [Pt.styleCntOf] at hcnt
    unfold set_style_cnt
    simp only [h1, if_true]
    simp only [h2, if_true]
    have hpr : ({ pr with presStyleCnt := some (toString c) } : PrSet) = pr := by
      rcases pr with ⟨a1, a2, a3, a4, a5⟩
      simp only at hcnt
      rw [← hcnt]
    rw [hpr]

theorem set_style_cnt_idem (c : Nat) (p : Pt) :
    set_style_cnt c (set_style_cnt c p) = set_style_cnt c p := by
  rcases hcond : (p.ptype == some "pres" &&
      (p.presNameOf == some "pictRect" || p.presNameOf == some "textRect")) with _ | _
  · rw [set_style_cnt_of_miss c p hcond, set_style_cnt_of_miss c p hcond]
  · apply set_style_cnt_of_already
    · rw [set_style_cnt_ptype, set_style_cnt_presName]
      exact hcond
    · exact set_style_cnt_of_hit c p hcond

theorem set_style_cnt_modelIdProp (c : Nat) (p : Pt) :
    (set_style_cnt c p).modelIdProp = p.modelIdProp := by
  unfold Pt.modelIdProp
  rw [set_style_cnt_modelId]

theorem sync_stage_pts_eq (ptl : List Pt) (cxl : List Cxn) :
    sync_stage_pts ptl cxl =
      List.filter (fun p => !((p.ptype == some "parTrans" || p.ptype == some "sibTrans") &&
          !((trans_used cxl).contains p.modelIdProp)))
        (List.filter (fun p => !(optTruthy p.modelId &&
            !(optMem p.modelId (referenced_ids cxl)) && (p.ptype == some "pres")))
          (ptl.map (set_style_cnt (countDataPts ptl)))) := rfl

theorem sync_stage_pts_idem (ptl : List Pt) (cxl cxl2 : List Cxn)
    (h1 : referenced_ids cxl2 = referenced_ids cxl)
    (h2 : trans_used cxl2 = trans_used cxl) :
    sync_stage_pts (sync_stage_pts ptl cxl) cxl2 = sync_stage_pts ptl cxl := by
  have hq2inv : ∀ a : Pt, (fun p : Pt => !(optTruthy p.modelId &&
      !(optMem p.modelId (referenced_ids cxl)) && (p.ptype == some "pres")))
        (set_style_cnt (countDataPts ptl) a) =
      (fun p : Pt => !(optTruthy p.modelId &&
        !(optMem p.modelId (referenced_ids cxl)) && (p.ptype == some "pres"))) a := by
    intro a
    dsimp only
    rw [set_style_cnt_modelId, set_style_cnt_ptype]
  have hq3inv : ∀ a : Pt, (fun p : Pt => !((p.ptype == some "parTrans" ||
      p.ptype == some "sibTrans") && !((trans_used cxl).contains p.modelIdProp)))
        (set_style_cnt (countDataPts ptl) a) =
      (fun p : Pt => !((p.ptype == some "parTrans" || p.ptype == some "sibTrans") &&
        !((trans_used cxl).contains p.modelIdProp))) a := by
    intro a
    dsimp only
    rw [set_style_cnt_modelIdProp, set_style_cnt_ptype]
  rw [sync_stage_pts_eq (sync_stage_pts ptl cxl) cxl2, h1, h2, countDataPts_sync_stage]
  rw [show sync_stage_pts ptl cxl =
    List.filter (fun p => !((p.ptype == some "parTrans" || p.ptype == some "sibTrans") &&
        !((trans_used cxl).contains p.modelIdProp)))
      (List.filter (fun p => !(optTruthy p.modelId &&
          !(optMem p.modelId (referenced_ids cxl)) && (p.ptype == some "pres")))
        (ptl.map (set_style_cnt (countDataPts ptl)))) from sync_stage_pts_eq ptl cxl]
  rw [← filter_map_comm _ _ hq3inv, ← filter_map_comm _ _ hq2inv]
  rw [List.map_map]
  have hmapidem : List.map (set_style_cnt (countDataPts ptl) ∘
      set_style_cnt (countDataPts ptl)) ptl = List.map (set_style_cnt (countDataPts ptl)) ptl :=
    List.map_congr_left (fun a _ => set_style_cnt_idem (countDataPts ptl) a)
  rw [hmapidem]
  rw [filter_sandwich]
  exact filter_sandwich _ _ _

theorem sync_core_none (ptl : List Pt) (cxl : List Cxn)
    (h : find_doc_id (sync_stage_pts ptl cxl) = none) :
    sync_core ptl cxl = (sync_stage_pts ptl cxl, cxl) := by
  unfold sync_core
  dsimp only
  rw [h]

theorem sync_core_doc_noname (ptl : List Pt) (cxl : List Cxn) (docId : String)
    (hd : find_doc_id (sync_stage_pts ptl cxl) = some docId)
    (hn : find_name0_id (sync_stage_pts ptl cxl) = none) :
    sync_core ptl cxl = (sync_stage_pts ptl cxl, ensure_connection_ids cxl) := by
  unfold sync_core
  dsimp only
  rw [hd]
  dsimp only
  rw [hn]

theorem sync_core_doc_name (ptl : List Pt) (cxl : List Cxn) (docId pid : String)
    (hd : find_doc_id (sync_stage_pts ptl cxl) = some docId)
    (hn : find_name0_id (sync_stage_pts ptl cxl) = some pid) :
    sync_core ptl cxl = (sync_stage_pts ptl cxl,
      ensure_connection_ids (sync_presparof (sync_stage_pts ptl cxl)
        (build_srcord_map cxl docId) pid cxl)) := by
  unfold sync_core
  dsimp only
  rw [hd]
  dsimp only
  rw [hn]

theorem referenced_ids_ensure (l : List Cxn) :
    referenced_ids (ensure_connection_ids l) = referenced_ids l := by
  unfold ensure_connection_ids
  exact referenced_ids_ensure_go l _

theorem trans_used_ensure (l : List Cxn) :
    trans_used (ensure_connection_ids l) = trans_used l := by
  unfold ensure_connection_ids
  exact trans_used_ensure_go l _

theorem build_srcord_map_ensure (d : String) (l : List Cxn) :
    build_srcord_map (ensure_connection_ids l) d = build_srcord_map l d := by
  unfold ensure_connection_ids
  exact build_srcord_map_ensure_go d l _

theorem child_scan_go_ensure_ids (P : List Pt) (m : List (String × String)) (pid : String)
    (i : Nat) (l : List Cxn) :
    child_scan_go P m pid i (ensure_connection_ids l) = child_scan_go P m pid i l := by
  unfold ensure_connection_ids
  exact child_scan_go_ensure P m pid l i _

theorem ensure_connection_ids_idem (l : List Cxn) :
    ensure_connection_ids (ensure_connection_ids l) = ensure_connection_ids l :=
  ensure_connection_ids_of_ensure_go l (max_cxn_id l + 1)

theorem apply_go_ensure_ids_apply_go (l : List Cxn) (as : List (Nat × Nat)) :
    apply_children_go [] as 0 (ensure_connection_ids (apply_children_go [] as 0 l)) =
      ensure_connection_ids (apply_children_go [] as 0 l) := by
  unfold ensure_connection_ids
  exact apply_go_ensure_apply_go l as 0 _

/-- C3 amended: the normalization pass is idempotent on every graph on
which it removes no `presParOf` connection (it is not idempotent in
general: removing an invalid `presParOf` child can orphan presentation
points that only the following run removes, see the counterexample). -/
theorem C3_sync_idempotent_when_no_removals (g : CT_DataModel)
    (h : sync_removal_count g = 0) :
    synchronize_presof_ordering (synchronize_presof_ordering g) =
      synchronize_presof_ordering g := by
  rcases hp : g.ptLst with _ | ptl
  · have hid : synchronize_presof_ordering g = g := by
      unfold synchronize_presof_ordering
      rw [hp]
    rw [hid]
    exact hid
  rcases hc : g.cxnLst with _ | cxl
  · have hid : synchronize_presof_ordering g = g := by
      unfold synchronize_presof_ordering
      rw [hp, hc]
    rw [hid]
    exact hid
  have hsg : synchronize_presof_ordering g =
      { ptLst := some (sync_core ptl cxl).1, cxnLst := some (sync_core ptl cxl).2 } := by
    unfold synchronize_presof_ordering
    rw [hp, hc]
  have hstep : ∀ (X : List Pt) (Y : List Cxn),
      synchronize_presof_ordering { ptLst := some X, cxnLst := some Y } =
        { ptLst := some (sync_core X Y).1, cxnLst := some (sync_core X Y).2 } :=
    fun X Y => rfl
  rw [hsg, hstep]
  rcases hdoc : find_doc_id (sync_stage_pts ptl cxl) with _ | docId
  · rw [sync_core_none ptl cxl hdoc]
    have hstage : sync_stage_pts (sync_stage_pts ptl cxl) cxl = sync_stage_pts ptl cxl :=
      sync_stage_pts_idem ptl cxl cxl rfl rfl
    have hd2 : find_doc_id (sync_stage_pts (sync_stage_pts ptl cxl) cxl) = none := by
      rw [hstage]
      exact hdoc
    rw [sync_core_none (sync_stage_pts ptl cxl) cxl hd2, hstage]
  rcases hn0 : find_name0_id (sync_stage_pts ptl cxl) with _ | pid
  · rw [sync_core_doc_noname ptl cxl docId hdoc hn0]
    have href : referenced_ids (ensure_connection_ids cxl) = referenced_ids cxl :=
      referenced_ids_ensure cxl
    have htr : trans_used (ensure_connection_ids cxl) = trans_used cxl :=
      trans_used_ensure cxl
    have hstage : sync_stage_pts (sync_stage_pts ptl cxl) (ensure_connection_ids cxl) =
        sync_stage_pts ptl cxl := sync_stage_pts_idem ptl cxl _ href htr
    have hd2 : find_doc_id (sync_stage_pts (sync_stage_pts ptl cxl)
        (ensure_connection_ids cxl)) = some docId := by
      rw [hstage]
      exact hdoc
    have hn2 : find_name0_id (sync_stage_pts (sync_stage_pts ptl cxl)
        (ensure_connection_ids cxl)) = none := by
      rw [hstage]
      exact hn0
    rw [sync_core_doc_noname _ _ docId hd2 hn2, hstage, ensure_connection_ids_idem]
  · have hrm : child_removals (child_scan_go (sync_stage_pts ptl cxl)
        (build_srcord_map cxl docId) pid 0 cxl) = [] := by
      unfold sync_removal_count at h
      rw [hp, hc] at h
      dsimp only at h
      rw [hdoc] at h
      dsimp only at h
      rw [hn0] at h
      exact List.length_eq_zero.mp h
    have hA : sync_presparof (sync_stage_pts ptl cxl) (build_srcord_map cxl docId) pid cxl =
        apply_children_go [] (child_assigns (child_scan_go (sync_stage_pts ptl cxl)
          (build_srcord_map cxl docId) pid 0 cxl)) 0 cxl := by
      unfold sync_presparof
      dsimp only
      rw [hrm]
    rw [sync_core_doc_name ptl cxl docId pid hdoc hn0, hA]
    have hside : ∀ jo ∈ child_assigns (child_scan_go (sync_stage_pts ptl cxl)
        (build_srcord_map cxl docId) pid 0 cxl),
        jo.1 < 0 ∨ ∃ k c, jo.1 = 0 + k ∧ cxl.get? k = some c ∧
          (c.type == some "presParOf") = true := by
      intro jo hjo
      right
      rcases jo with ⟨j, o⟩
      rcases child_assigns_mem_scan _ j o hjo with ⟨cl, hscan⟩
      rcases child_scan_go_pos (sync_stage_pts ptl cxl) (build_srcord_map cxl docId) pid
        cxl 0 j cl hscan with ⟨k, c2, hk, hget, ht⟩
      exact ⟨k, c2, by omega, hget, ht⟩
    have href : referenced_ids (ensure_connection_ids (apply_children_go []
        (child_assigns (child_scan_go (sync_stage_pts ptl cxl)
          (build_srcord_map cxl docId) pid 0 cxl)) 0 cxl)) = referenced_ids cxl := by
      rw [referenced_ids_ensure, referenced_ids_apply_go]
    have htr : trans_used (ensure_connection_ids (apply_children_go []
        (child_assigns (child_scan_go (sync_stage_pts ptl cxl)
          (build_srcord_map cxl docId) pid 0 cxl)) 0 cxl)) = trans_used cxl := by
      rw [trans_used_ensure, trans_used_apply_go]
    have hstage : sync_stage_pts (sync_stage_pts ptl cxl) (ensure_connection_ids
        (apply_children_go [] (child_assigns (child_scan_go (sync_stage_pts ptl cxl)
          (build_srcord_map cxl docId) pid 0 cxl)) 0 cxl)) = sync_stage_pts ptl cxl :=
      sync_stage_pts_idem ptl cxl _ href htr
    have hd2 : find_doc_id (sync_stage_pts (sync_stage_pts ptl cxl)
        (ensure_connection_ids (apply_children_go [] (child_assigns
          (child_scan_go (sync_stage_pts ptl cxl) (build_srcord_map cxl docId) pid 0 cxl))
          0 cxl))) = some docId := by
      rw [hstage]
      exact hdoc
    have hn2 : find_name0_id (sync_stage_pts (sync_stage_pts ptl cxl)
        (ensure_connection_ids (apply_children_go [] (child_assigns
          (child_scan_go (sync_stage_pts ptl cxl) (build_srcord_map cxl docId) pid 0 cxl))
          0 cxl))) = some pid := by
      rw [hstage]
      exact hn0
    rw [sync_core_doc_name _ _ docId pid hd2 hn2, hstage]
    have hm2 : build_srcord_map (ensure_connection_ids (apply_children_go []
        (child_assigns (child_scan_go (sync_stage_pts ptl cxl)
          (build_srcord_map cxl docId) pid 0 cxl)) 0 cxl)) docId =
        build_srcord_map cxl docId := by
      rw [build_srcord_map_ensure, build_srcord_map_apply_go docId cxl _ 0 hside]
    rw [hm2]
    have hscan2 : child_scan_go (sync_stage_pts ptl cxl) (build_srcord_map cxl docId) pid 0
        (ensure_connection_ids (apply_children_go [] (child_assigns
          (child_scan_go (sync_stage_pts ptl cxl) (build_srcord_map cxl docId) pid 0 cxl))
          0 cxl)) =
        child_scan_go (sync_stage_pts ptl cxl) (build_srcord_map cxl docId) pid 0 cxl := by
      rw [child_scan_go_ensure_ids, child_scan_go_apply]
    have hsp : sync_presparof (sync_stage_pts ptl cxl) (build_srcord_map cxl docId) pid
        (ensure_connection_ids (apply_children_go [] (child_assigns
          (child_scan_go (sync_stage_pts ptl cxl) (build_srcord_map cxl docId) pid 0 cxl))
          0 cxl)) =
        ensure_connection_ids (apply_children_go [] (child_assigns
          (child_scan_go (sync_stage_pts ptl cxl) (build_srcord_map cxl docId) pid 0 cxl))
          0 cxl) := by
      unfold sync_presparof
      dsimp only
      rw [hscan2, hrm]
      exact apply_go_ensure_ids_apply_go cxl _
    rw [hsp, ensure_connection_ids_idem]

theorem C3_sync_idempotent_when_no_removals_witness :
    sync_removal_count gW3 = 0 ∧
      synchronize_presof_ordering (synchronize_presof_ordering gW3) =
        synchronize_presof_ordering gW3 :=
  ⟨by decide, C3_sync_idempotent_when_no_removals gW3 (by decide)⟩
